import Mathlib

/-!
Verification development for the passkit repository (Rust).

The file shallowly embeds the repository's code:
* `src/pass.rs` and `src/field.rs`: the pass data model, its serde
  serialization attributes (modelled as explicit encode/decode functions on a
  JSON value tree), and the `PassBuilder` API;
* `src/lib.rs`: the `.pkpass` build pipeline (`PassSource`), modelled over an
  explicit file-system state, with the `tempdir::TempDir` scoped-drop semantics
  made explicit at every exit of `build_pkpass`;
* the SHA-1 digest used by `get_hash` (the `crypto` crate's `Sha1`),
  implemented concretely over byte lists.

Machine integers are modelled as `Int`/`Nat`; Rust `f64` values are carried
opaquely as bit patterns (`F64`), which is faithful for the claims considered
(none depends on floating-point arithmetic, only on values being carried
through unchanged).
-/

/-! ## JSON value trees (model of `serde_json::Value`) -/

inductive Json where
  | str (s : String)
  | int (i : Int)
  | float (bits : Nat)
  | bool (b : Bool)
  | null
  | arr (xs : List Json)
  | obj (kvs : List (String × Json))

/-- Model of serializing a JSON tree to text (`serde_json::to_string`-like).
Only used to give the staged `pass.json` file concrete bytes for hashing; no
claim depends on the exact text, so string escaping is elided. -/
def renderJson : Json → String
  | .str s => "\"" ++ s ++ "\""
  | .int i => toString i
  | .float b => "f" ++ toString b
  | .bool b => cond b "true" "false"
  | .null => "null"
  | .arr xs => "[" ++ String.intercalate "," (xs.attach.map (fun x => renderJson x.1)) ++ "]"
  | .obj kvs =>
      "\x7b" ++ String.intercalate ","
        (kvs.attach.map (fun x => "\"" ++ x.1.1 ++ "\":" ++ renderJson x.1.2)) ++ "\x7d"
termination_by j => sizeOf j
decreasing_by
  · have h := List.sizeOf_lt_of_mem x.2
    simp only [Json.arr.sizeOf_spec]
    omega
  · have h := List.sizeOf_lt_of_mem x.2
    have h2 : sizeOf x.1.2 < sizeOf x.1 := by
      obtain ⟨⟨k, v⟩, hm⟩ := x
      simp [Prod.mk.sizeOf_spec]
    simp only [Json.obj.sizeOf_spec]
    omega

def stringBytes (s : String) : List Nat :=
  s.toList.map Char.toNat

/-! ## SHA-1 (model of `crypto::sha1::Sha1` as used by `get_hash`) -/

def u32mod : Nat := 4294967296

def rotl32 (n : Nat) (x : Nat) : Nat :=
  ((x <<< n) ||| (x >>> (32 - n))) % u32mod

/-- Number of zero bytes inserted between the `0x80` marker and the length
field so the padded message length is a multiple of 64 bytes. -/
def sha1ZeroPad (len : Nat) : Nat :=
  (119 - len % 64) % 64

def natToBytesBE : Nat → Nat → List Nat
  | 0, _ => []
  | n + 1, v => natToBytesBE n (v / 256) ++ [v % 256]

def sha1Pad (msg : List Nat) : List Nat :=
  msg ++ [128] ++ List.replicate (sha1ZeroPad msg.length) 0
    ++ natToBytesBE 8 ((msg.length * 8) % 18446744073709551616)

def bytesToWords : List Nat → List Nat
  | a :: b :: c :: d :: rest => (((a * 256 + b) * 256 + c) * 256 + d) :: bytesToWords rest
  | _ => []

def wordsToBlocks : List Nat → List (List Nat)
  | w0 :: w1 :: w2 :: w3 :: w4 :: w5 :: w6 :: w7 :: w8 :: w9 :: w10 :: w11 :: w12 :: w13
      :: w14 :: w15 :: rest =>
      [w0, w1, w2, w3, w4, w5, w6, w7, w8, w9, w10, w11, w12, w13, w14, w15]
        :: wordsToBlocks rest
  | _ => []

/-- Extend the 16 block words to the 80-word message schedule. -/
def sha1Schedule (n : Nat) (w : List Nat) : List Nat :=
  match n with
  | 0 => w
  | n + 1 =>
      let i := w.length
      sha1Schedule n
        (w ++ [rotl32 1 ((((w.getD (i - 3) 0) ^^^ (w.getD (i - 8) 0)) ^^^
          (w.getD (i - 14) 0)) ^^^ (w.getD (i - 16) 0))])

def sha1F (i b c d : Nat) : Nat :=
  if i < 20 then (b &&& c) ||| ((b ^^^ 4294967295) &&& d)
  else if i < 40 then (b ^^^ c) ^^^ d
  else if i < 60 then ((b &&& c) ||| (b &&& d)) ||| (c &&& d)
  else (b ^^^ c) ^^^ d

def sha1K (i : Nat) : Nat :=
  if i < 20 then 1518500249
  else if i < 40 then 1859775393
  else if i < 60 then 2400959708
  else 3395469782

def sha1Rounds (w : List Nat) (i : Nat) :
    Nat × Nat × Nat × Nat × Nat → Nat × Nat × Nat × Nat × Nat
  | (a, b, c, d, e) =>
    match i with
    | 0 => (a, b, c, d, e)
    | n + 1 =>
        let idx := 80 - (n + 1)
        let temp := (rotl32 5 a + sha1F idx b c d + e + sha1K idx + w.getD idx 0) % u32mod
        sha1Rounds w n (temp, a, rotl32 30 b, c, d)

def sha1Block (h : Nat × Nat × Nat × Nat × Nat) (block : List Nat) :
    Nat × Nat × Nat × Nat × Nat :=
  let w := sha1Schedule 64 block
  let (a, b, c, d, e) := sha1Rounds w 80 h
  match h with
  | (h0, h1, h2, h3, h4) =>
      ((h0 + a) % u32mod, (h1 + b) % u32mod, (h2 + c) % u32mod,
       (h3 + d) % u32mod, (h4 + e) % u32mod)

def sha1Bytes (msg : List Nat) : List Nat :=
  let blocks := wordsToBlocks (bytesToWords (sha1Pad msg))
  let (h0, h1, h2, h3, h4) :=
    blocks.foldl sha1Block (1732584193, 4023233417, 2562383102, 271733878, 3285377520)
  natToBytesBE 4 h0 ++ natToBytesBE 4 h1 ++ natToBytesBE 4 h2
    ++ natToBytesBE 4 h3 ++ natToBytesBE 4 h4

def hexDigit (n : Nat) : Char :=
  if n < 10 then Char.ofNat (48 + n) else Char.ofNat (87 + n)

def bytesToHex (bs : List Nat) : String :=
  String.mk (bs.foldr (fun b acc => hexDigit (b / 16) :: hexDigit (b % 16) :: acc) [])

/-- Embedding of `get_hash` from `src/lib.rs`: lowercase hex of the SHA-1
digest of the content bytes. -/
def getHash (content : List Nat) : String :=
  bytesToHex (sha1Bytes content)

/-! ## Data model of `src/field.rs` -/

/-- Opaque carrier for a Rust `f64` value (bit pattern). -/
structure F64 where
  bits : Nat
deriving DecidableEq, Repr

inductive Value where
  | str (s : String)
  | int (i : Int)
  | float (f : F64)
deriving DecidableEq, Repr

def Value.defaultVal : Value := .str ""

inductive DataDetectorType where
  | phoneNumber
  | link
  | address
  | calendarEvent
deriving DecidableEq, Repr

inductive TextAlignment where
  | left
  | center
  | right
  | natural
deriving DecidableEq, Repr

def TextAlignment.isNatural : TextAlignment → Bool
  | .natural => true
  | _ => false

inductive DateTimeStyle where
  | none
  | short
  | medium
  | long
  | full
deriving DecidableEq, Repr

inductive NumberStyle where
  | decimal
  | percent
  | scientific
  | spellOut
deriving DecidableEq, Repr

structure FieldDate where
  dateStyle : DateTimeStyle
  ignoresTimeZone : Bool
  isRelative : Bool
  timeStyle : DateTimeStyle
deriving DecidableEq, Repr

def FieldDate.defaultVal : FieldDate := ⟨.medium, false, false, .medium⟩

structure FieldNumber where
  currencyCode : String
  numberStyle : NumberStyle
deriving DecidableEq, Repr

def FieldNumber.defaultVal : FieldNumber := ⟨"", .decimal⟩

structure PassField where
  attributedValue : Option String
  changeMessage : Option String
  dataDetectorTypes : Option (List DataDetectorType)
  key : String
  label : Option String
  textAlignment : TextAlignment
  value : Value
  date : Option FieldDate
  number : Option FieldNumber
deriving DecidableEq, Repr

def PassField.defaultVal : PassField :=
  ⟨none, none, none, "", none, .natural, Value.defaultVal, none, none⟩

/-! ## Data model of `src/pass.rs` -/

structure Beacon where
  proximityUuid : String
  major : Option Nat
  minor : Option Nat
  relevantText : Option String
deriving DecidableEq, Repr

structure Location where
  altitude : Option F64
  latitude : Option F64
  longitude : Option F64
  relevantText : Option String
deriving DecidableEq, Repr

inductive BarcodeFormat where
  | qr
  | pdf417
  | aztec
  | code128
deriving DecidableEq, Repr

structure Barcode where
  message : String
  format : BarcodeFormat
  messageEncoding : String
  altText : Option String
deriving DecidableEq, Repr

structure WebService where
  authenticationToken : String
  webServiceUrl : String
deriving DecidableEq, Repr

structure NFC where
  message : String
  encryptionPublicKey : Option String
deriving DecidableEq, Repr

structure VisualAppearance where
  barcodes : List Barcode
  backgroundColor : Option String
  foregroundColor : Option String
  groupingIdentifier : Option String
  labelColor : Option String
  logoText : Option String
  suppressStripShine : Bool
deriving DecidableEq, Repr

def VisualAppearance.defaultVal : VisualAppearance :=
  ⟨[], none, none, none, none, none, false⟩

inductive TransitType where
  | air
  | boat
  | bus
  | generic
  | train
deriving DecidableEq, Repr

structure Structure where
  auxiliaryFields : List PassField
  backFields : List PassField
  headerFields : List PassField
  primaryFields : List PassField
  secondaryFields : List PassField
  transitType : Option TransitType
deriving DecidableEq, Repr

def Structure.defaultVal : Structure := ⟨[], [], [], [], [], none⟩

inductive Style where
  | boardingPass (s : Structure)
  | coupon (s : Structure)
  | eventTicket (s : Structure)
  | generic (s : Structure)
  | storeCard (s : Structure)
deriving DecidableEq, Repr

def Style.structureOf : Style → Structure
  | .boardingPass s => s
  | .coupon s => s
  | .eventTicket s => s
  | .generic s => s
  | .storeCard s => s

structure Pass where
  description : String
  formatVersion : Int
  organizationName : String
  passTypeIdentifier : String
  serialNumber : String
  teamIdentifier : String
  appLaunchUrl : Option String
  associatedStoreIdentifiers : List Int
  userInfo : List (String × String)
  expirationDate : Option String
  voided : Bool
  beacons : List Beacon
  locations : List Location
  maxDistance : Option Nat
  relevantDate : Option String
  style : Style
  visual : Option VisualAppearance
  webService : Option WebService
  nfc : Option NFC
deriving DecidableEq, Repr

/-! ## Model of the serde derive encoders (`Serialize` with the source's
attributes: `rename_all = "camelCase"`, `skip_serializing_if`, `flatten`,
explicit `rename`). Each `..KVs` function produces the key-value pairs a
struct contributes, in Rust field-declaration order. -/

def reqKV (k : String) (j : Json) : List (String × Json) := [(k, j)]

def optKV (k : String) (f : α → Json) : Option α → List (String × Json)
  | none => []
  | some a => [(k, f a)]

/-- Model of `skip_serializing_if = "Vec::is_empty"`. -/
def listKV (k : String) (f : α → Json) (xs : List α) : List (String × Json) :=
  if xs.isEmpty then [] else [(k, .arr (xs.map f))]

/-- Model of `skip_serializing_if = "is_false"`. -/
def boolKV (k : String) (b : Bool) : List (String × Json) :=
  if b then [(k, .bool true)] else []

def encodeDataDetectorType : DataDetectorType → Json
  | .phoneNumber => .str "PKDataDetectorTypePhoneNumber"
  | .link => .str "PKDataDetectorTypeLink"
  | .address => .str "PKDataDetectorTypeAddress"
  | .calendarEvent => .str "PKDataDetectorTypeCalendarEvent"

def encodeTextAlignment : TextAlignment → Json
  | .left => .str "PKTextAlignmentLeft"
  | .center => .str "PKTextAlignmentCenter"
  | .right => .str "PKTextAlignmentRight"
  | .natural => .str "PKTextAlignmentNatural"

def encodeDateTimeStyle : DateTimeStyle → Json
  | .none => .str "PKDateStyleNone"
  | .short => .str "PKDateStyleShort"
  | .medium => .str "PKDateStyleMedium"
  | .long => .str "PKDateStyleLong"
  | .full => .str "PKDateStyleFull"

def encodeNumberStyle : NumberStyle → Json
  | .decimal => .str "PKNumberStyleDecimal"
  | .percent => .str "PKNumberStylePercent"
  | .scientific => .str "PKNumberStyleScientific"
  | .spellOut => .str "PKNumberStyleSpellOut"

def encodeTransitType : TransitType → Json
  | .air => .str "PKTransitTypeAir"
  | .boat => .str "PKTransitTypeBoat"
  | .bus => .str "PKTransitTypeBus"
  | .generic => .str "PKTransitTypeGeneric"
  | .train => .str "PKTransitTypeTrain"

def encodeBarcodeFormat : BarcodeFormat → Json
  | .qr => .str "PKBarcodeFormatQR"
  | .pdf417 => .str "PKBarcodeFormatPDF417"
  | .aztec => .str "PKBarcodeFormatAztec"
  | .code128 => .str "PKBarcodeFormatCode128"

/-- Model of the untagged `Value` enum serialization. -/
def encodeValue : Value → Json
  | .str s => .str s
  | .int i => .int i
  | .float f => .float f.bits

/-- Flattened key-value pairs of an optional `FieldDate` side-struct. -/
def dateKVs : Option FieldDate → List (String × Json)
  | none => []
  | some d =>
      reqKV "dateStyle" (encodeDateTimeStyle d.dateStyle)
        ++ boolKV "ignoresTimeZone" d.ignoresTimeZone
        ++ boolKV "isRelative" d.isRelative
        ++ reqKV "timeStyle" (encodeDateTimeStyle d.timeStyle)

/-- Flattened key-value pairs of an optional `FieldNumber` side-struct. -/
def numberKVs : Option FieldNumber → List (String × Json)
  | none => []
  | some n =>
      reqKV "currencyCode" (.str n.currencyCode)
        ++ reqKV "numberStyle" (encodeNumberStyle n.numberStyle)

def alignKV (a : TextAlignment) : List (String × Json) :=
  if a.isNatural then [] else [("textAlignment", encodeTextAlignment a)]

def encodeFieldKVs (f : PassField) : List (String × Json) :=
  optKV "attributedValue" .str f.attributedValue
    ++ optKV "changeMessage" .str f.changeMessage
    ++ optKV "dataDetectorTypes" (fun l => .arr (l.map encodeDataDetectorType))
        f.dataDetectorTypes
    ++ reqKV "key" (.str f.key)
    ++ optKV "label" .str f.label
    ++ alignKV f.textAlignment
    ++ reqKV "value" (encodeValue f.value)
    ++ dateKVs f.date
    ++ numberKVs f.number

def encodePassField (f : PassField) : Json := .obj (encodeFieldKVs f)

def encodeBeacon (b : Beacon) : Json :=
  .obj (reqKV "proximityUUID" (.str b.proximityUuid)
    ++ optKV "major" (fun n => .int n) b.major
    ++ optKV "minor" (fun n => .int n) b.minor
    ++ optKV "relevantText" .str b.relevantText)

def encodeLocation (l : Location) : Json :=
  .obj (optKV "altitude" (fun f => .float f.bits) l.altitude
    ++ optKV "latitude" (fun f => .float f.bits) l.latitude
    ++ optKV "longitude" (fun f => .float f.bits) l.longitude
    ++ optKV "relevantText" .str l.relevantText)

def encodeBarcode (b : Barcode) : Json :=
  .obj (reqKV "message" (.str b.message)
    ++ reqKV "format" (encodeBarcodeFormat b.format)
    ++ reqKV "messageEncoding" (.str b.messageEncoding)
    ++ optKV "altText" .str b.altText)

def encodeVisualKVs (v : VisualAppearance) : List (String × Json) :=
  listKV "barcodes" encodeBarcode v.barcodes
    ++ optKV "backgroundColor" .str v.backgroundColor
    ++ optKV "foregroundColor" .str v.foregroundColor
    ++ optKV "groupingIdentifier" .str v.groupingIdentifier
    ++ optKV "labelColor" .str v.labelColor
    ++ optKV "logoText" .str v.logoText
    ++ boolKV "suppressStripShine" v.suppressStripShine

def encodeStructureKVs (s : Structure) : List (String × Json) :=
  listKV "auxiliaryFields" encodePassField s.auxiliaryFields
    ++ listKV "backFields" encodePassField s.backFields
    ++ listKV "headerFields" encodePassField s.headerFields
    ++ listKV "primaryFields" encodePassField s.primaryFields
    ++ listKV "secondaryFields" encodePassField s.secondaryFields
    ++ optKV "transitType" encodeTransitType s.transitType

def encodeStructure (s : Structure) : Json := .obj (encodeStructureKVs s)

/-- Flattened externally-tagged `Style` enum: exactly one tag key. -/
def styleKV : Style → List (String × Json)
  | .boardingPass s => [("boardingPass", encodeStructure s)]
  | .coupon s => [("coupon", encodeStructure s)]
  | .eventTicket s => [("eventTicket", encodeStructure s)]
  | .generic s => [("generic", encodeStructure s)]
  | .storeCard s => [("storeCard", encodeStructure s)]

/-- Flattened optional `VisualAppearance`: `None` contributes nothing. -/
def visualKVs : Option VisualAppearance → List (String × Json)
  | none => []
  | some v => encodeVisualKVs v

/-- Flattened optional `WebService`: `None` contributes nothing. -/
def wsKVs : Option WebService → List (String × Json)
  | none => []
  | some w =>
      [("authenticationToken", .str w.authenticationToken),
       ("webServiceURL", .str w.webServiceUrl)]

/-- Serialization of `NFC`: `encryption_public_key` has no
`skip_serializing_if`, so `None` is emitted as JSON `null`. -/
def encodeNfc (n : NFC) : Json :=
  .obj [("message", .str n.message),
        ("encryptionPublicKey",
          match n.encryptionPublicKey with
          | some s => .str s
          | none => .null)]

def encodeUserInfo (ui : List (String × String)) : Json :=
  .obj (ui.map (fun kv => (kv.1, .str kv.2)))

def encodePassKVs (p : Pass) : List (String × Json) :=
  reqKV "description" (.str p.description)
    ++ reqKV "formatVersion" (.int p.formatVersion)
    ++ reqKV "organizationName" (.str p.organizationName)
    ++ reqKV "passTypeIdentifier" (.str p.passTypeIdentifier)
    ++ reqKV "serialNumber" (.str p.serialNumber)
    ++ reqKV "teamIdentifier" (.str p.teamIdentifier)
    ++ optKV "appLaunchURL" .str p.appLaunchUrl
    ++ listKV "associatedStoreIdentifiers" (fun i => .int i) p.associatedStoreIdentifiers
    ++ reqKV "userInfo" (encodeUserInfo p.userInfo)
    ++ optKV "expirationDate" .str p.expirationDate
    ++ boolKV "voided" p.voided
    ++ listKV "beacons" encodeBeacon p.beacons
    ++ listKV "locations" encodeLocation p.locations
    ++ optKV "maxDistance" (fun n => .int n) p.maxDistance
    ++ optKV "relevantDate" .str p.relevantDate
    ++ styleKV p.style
    ++ visualKVs p.visual
    ++ wsKVs p.webService
    ++ optKV "nfc" encodeNfc p.nfc

/-- Canonical encoding of a `Pass` (model of `serde_json::to_string` modulo
the value-tree-to-text step). -/
def encodePass (p : Pass) : Json := .obj (encodePassKVs p)

/-! ## Model of the serde derive decoders (`Deserialize`). Named (non-flatten)
fields are matched by key anywhere in the object; keys matching no named field
are buffered in order of appearance and consumed by the flattened fields in
declaration order. A flattened `Option` deserializes to `none` exactly when
the remaining buffer is empty, otherwise to `some` of the inner parse
(serde's `FlatMapDeserializer` behavior). Unknown keys left at the end are
ignored. -/

def jLookup : List (String × Json) → String → Option Json
  | [], _ => none
  | kv :: rest, k => if kv.1 == k then some kv.2 else jLookup rest k

/-- Required field: absent means a deserialization error. -/
def getReq (kvs : List (String × Json)) (k : String) (f : Json → Option α) : Option α :=
  match jLookup kvs k with
  | some v => f v
  | none => none

/-- Optional field (`Option` type): absent or `null` becomes `none`. -/
def getOpt (kvs : List (String × Json)) (k : String) (f : Json → Option α) :
    Option (Option α) :=
  match jLookup kvs k with
  | some .null => some none
  | some v => (f v).map some
  | none => some none

/-- Defaulted field (`serde(default)` at struct or field level): absent takes
the default. -/
def getD (kvs : List (String × Json)) (k : String) (f : Json → Option α) (dflt : α) :
    Option α :=
  match jLookup kvs k with
  | some v => f v
  | none => some dflt

/-- Sequencing of element decoders over a list (model of serde's sequence
deserialization; first failure aborts). -/
def mapMOpt (f : α → Option β) : List α → Option (List β)
  | [] => some []
  | x :: xs => (f x).bind fun y => (mapMOpt f xs).map (fun ys => y :: ys)

def jStr : Json → Option String
  | .str s => some s
  | _ => none

def jBool : Json → Option Bool
  | .bool b => some b
  | _ => none

def fits32 (i : Int) : Bool :=
  decide (-2147483648 ≤ i) && decide (i < 2147483648)

def jI32 : Json → Option Int
  | .int i => if fits32 i then some i else none
  | _ => none

def jU32 : Json → Option Nat
  | .int i => if 0 ≤ i ∧ i < 4294967296 then some i.toNat else none
  | _ => none

def jU16 : Json → Option Nat
  | .int i => if 0 ≤ i ∧ i < 65536 then some i.toNat else none
  | _ => none

def jF64 : Json → Option F64
  | .float b => some ⟨b⟩
  | _ => none

def jArrE : Json → Option (List Json)
  | .arr xs => some xs
  | _ => none

def jStrPairs : Json → Option (List (String × String))
  | .obj kvs => mapMOpt (fun kv => (jStr kv.2).map (fun s => (kv.1, s))) kvs
  | _ => none

def decodeDataDetectorType : Json → Option DataDetectorType
  | .str s =>
      if s = "PKDataDetectorTypePhoneNumber" then some .phoneNumber
      else if s = "PKDataDetectorTypeLink" then some .link
      else if s = "PKDataDetectorTypeAddress" then some .address
      else if s = "PKDataDetectorTypeCalendarEvent" then some .calendarEvent
      else none
  | _ => none

def decodeTextAlignment : Json → Option TextAlignment
  | .str s =>
      if s = "PKTextAlignmentLeft" then some .left
      else if s = "PKTextAlignmentCenter" then some .center
      else if s = "PKTextAlignmentRight" then some .right
      else if s = "PKTextAlignmentNatural" then some .natural
      else none
  | _ => none

def decodeDateTimeStyle : Json → Option DateTimeStyle
  | .str s =>
      if s = "PKDateStyleNone" then some DateTimeStyle.none
      else if s = "PKDateStyleShort" then some .short
      else if s = "PKDateStyleMedium" then some .medium
      else if s = "PKDateStyleLong" then some .long
      else if s = "PKDateStyleFull" then some .full
      else none
  | _ => none

def decodeNumberStyle : Json → Option NumberStyle
  | .str s =>
      if s = "PKNumberStyleDecimal" then some .decimal
      else if s = "PKNumberStylePercent" then some .percent
      else if s = "PKNumberStyleScientific" then some .scientific
      else if s = "PKNumberStyleSpellOut" then some .spellOut
      else none
  | _ => none

def decodeTransitType : Json → Option TransitType
  | .str s =>
      if s = "PKTransitTypeAir" then some .air
      else if s = "PKTransitTypeBoat" then some .boat
      else if s = "PKTransitTypeBus" then some .bus
      else if s = "PKTransitTypeGeneric" then some .generic
      else if s = "PKTransitTypeTrain" then some .train
      else none
  | _ => none

def decodeBarcodeFormat : Json → Option BarcodeFormat
  | .str s =>
      if s = "PKBarcodeFormatQR" then some .qr
      else if s = "PKBarcodeFormatPDF417" then some .pdf417
      else if s = "PKBarcodeFormatAztec" then some .aztec
      else if s = "PKBarcodeFormatCode128" then some .code128
      else none
  | _ => none

/-- Untagged `Value` deserialization: variants tried in declaration order
(`String`, then `i32`, then `f64`). -/
def decodeValue : Json → Option Value
  | .str s => some (.str s)
  | .int i => if fits32 i then some (.int i) else none
  | .float b => some (.float ⟨b⟩)
  | _ => none

def fieldNamedKeys : List String :=
  ["attributedValue", "changeMessage", "dataDetectorTypes", "key", "label",
   "textAlignment", "value"]

def dateKeys : List String :=
  ["dateStyle", "ignoresTimeZone", "isRelative", "timeStyle"]

def numberKeys : List String := ["currencyCode", "numberStyle"]

def parseFieldDateFM (buf : List (String × Json)) : Option FieldDate := do
  let dateStyle ← getD buf "dateStyle" decodeDateTimeStyle .medium
  let ignoresTimeZone ← getD buf "ignoresTimeZone" jBool false
  let isRelative ← getD buf "isRelative" jBool false
  let timeStyle ← getD buf "timeStyle" decodeDateTimeStyle .medium
  some ⟨dateStyle, ignoresTimeZone, isRelative, timeStyle⟩

def parseFieldNumberFM (buf : List (String × Json)) : Option FieldNumber := do
  let currencyCode ← getD buf "currencyCode" jStr ""
  let numberStyle ← getD buf "numberStyle" decodeNumberStyle .decimal
  some ⟨currencyCode, numberStyle⟩

/-- Flattened tail of the `Field` deserializer: the two flattened optional
side-structs consume the buffered keys in declaration order; each is `none`
exactly when the remaining buffer at its turn is empty. -/
def decodeFieldFlat (buf : List (String × Json)) :
    Option (Option FieldDate × Option FieldNumber) := do
  let date ← if buf.isEmpty then some none else (parseFieldDateFM buf).map some
  let buf2 := buf.filter (fun kv => !(dateKeys.contains kv.1))
  let number ← if buf2.isEmpty then some none else (parseFieldNumberFM buf2).map some
  some (date, number)

def decodePassField : Json → Option PassField
  | .obj kvs => do
      let attributedValue ← getOpt kvs "attributedValue" jStr
      let changeMessage ← getOpt kvs "changeMessage" jStr
      let dataDetectorTypes ← getOpt kvs "dataDetectorTypes"
        (fun v => (jArrE v).bind (mapMOpt decodeDataDetectorType))
      let key ← getD kvs "key" jStr ""
      let label ← getOpt kvs "label" jStr
      let textAlignment ← getD kvs "textAlignment" decodeTextAlignment .natural
      let value ← getD kvs "value" decodeValue Value.defaultVal
      let flat ← decodeFieldFlat (kvs.filter (fun kv => !(fieldNamedKeys.contains kv.1)))
      some ⟨attributedValue, changeMessage, dataDetectorTypes, key, label,
            textAlignment, value, flat.1, flat.2⟩
  | _ => none

def decodeStructure : Json → Option Structure
  | .obj kvs => do
      let auxiliaryFields ← getD kvs "auxiliaryFields"
        (fun v => (jArrE v).bind (mapMOpt decodePassField)) []
      let backFields ← getD kvs "backFields"
        (fun v => (jArrE v).bind (mapMOpt decodePassField)) []
      let headerFields ← getD kvs "headerFields"
        (fun v => (jArrE v).bind (mapMOpt decodePassField)) []
      let primaryFields ← getD kvs "primaryFields"
        (fun v => (jArrE v).bind (mapMOpt decodePassField)) []
      let secondaryFields ← getD kvs "secondaryFields"
        (fun v => (jArrE v).bind (mapMOpt decodePassField)) []
      let transitType ← getOpt kvs "transitType" decodeTransitType
      some ⟨auxiliaryFields, backFields, headerFields, primaryFields,
            secondaryFields, transitType⟩
  | _ => none

def decodeBeacon : Json → Option Beacon
  | .obj kvs => do
      let proximityUuid ← getD kvs "proximityUUID" jStr ""
      let major ← getOpt kvs "major" jU16
      let minor ← getOpt kvs "minor" jU16
      let relevantText ← getOpt kvs "relevantText" jStr
      some ⟨proximityUuid, major, minor, relevantText⟩
  | _ => none

def decodeLocation : Json → Option Location
  | .obj kvs => do
      let altitude ← getOpt kvs "altitude" jF64
      let latitude ← getOpt kvs "latitude" jF64
      let longitude ← getOpt kvs "longitude" jF64
      let relevantText ← getOpt kvs "relevantText" jStr
      some ⟨altitude, latitude, longitude, relevantText⟩
  | _ => none

def decodeBarcode : Json → Option Barcode
  | .obj kvs => do
      let message ← getReq kvs "message" jStr
      let format ← getReq kvs "format" decodeBarcodeFormat
      let messageEncoding ← getReq kvs "messageEncoding" jStr
      let altText ← getOpt kvs "altText" jStr
      some ⟨message, format, messageEncoding, altText⟩
  | _ => none

def decodeNfc : Json → Option NFC
  | .obj kvs => do
      let message ← getReq kvs "message" jStr
      let encryptionPublicKey ← getOpt kvs "encryptionPublicKey" jStr
      some ⟨message, encryptionPublicKey⟩
  | _ => none

def visualKeys : List String :=
  ["barcodes", "backgroundColor", "foregroundColor", "groupingIdentifier",
   "labelColor", "logoText", "suppressStripShine"]

def parseVisualFM (buf : List (String × Json)) : Option VisualAppearance := do
  let barcodes ← getD buf "barcodes" (fun v => (jArrE v).bind (mapMOpt decodeBarcode)) []
  let backgroundColor ← getOpt buf "backgroundColor" jStr
  let foregroundColor ← getOpt buf "foregroundColor" jStr
  let groupingIdentifier ← getOpt buf "groupingIdentifier" jStr
  let labelColor ← getOpt buf "labelColor" jStr
  let logoText ← getOpt buf "logoText" jStr
  let suppressStripShine ← getD buf "suppressStripShine" jBool false
  some ⟨barcodes, backgroundColor, foregroundColor, groupingIdentifier,
        labelColor, logoText, suppressStripShine⟩

def parseWebServiceFM (buf : List (String × Json)) : Option WebService := do
  let authenticationToken ← getReq buf "authenticationToken" jStr
  let webServiceUrl ← getReq buf "webServiceURL" jStr
  some ⟨authenticationToken, webServiceUrl⟩

def styleTags : List String :=
  ["boardingPass", "coupon", "eventTicket", "generic", "storeCard"]

/-- Take the first entry whose key satisfies the predicate, returning it and
the buffer with that entry removed. -/
def extractFirst (p : String → Bool) :
    List (String × Json) → Option ((String × Json) × List (String × Json))
  | [] => none
  | kv :: rest =>
      if p kv.1 then some (kv, rest)
      else (extractFirst p rest).map (fun x => (x.1, kv :: x.2))

def decodeStyleTag (k : String) (v : Json) : Option Style :=
  if k = "boardingPass" then (decodeStructure v).map .boardingPass
  else if k = "coupon" then (decodeStructure v).map .coupon
  else if k = "eventTicket" then (decodeStructure v).map .eventTicket
  else if k = "generic" then (decodeStructure v).map .generic
  else if k = "storeCard" then (decodeStructure v).map .storeCard
  else none

def passNamedKeys : List String :=
  ["description", "formatVersion", "organizationName", "passTypeIdentifier",
   "serialNumber", "teamIdentifier", "appLaunchURL", "associatedStoreIdentifiers",
   "userInfo", "expirationDate", "voided", "beacons", "locations", "maxDistance",
   "relevantDate", "nfc"]


def jI32List (v : Json) : Option (List Int) := (jArrE v).bind (mapMOpt jI32)

def jBeaconList (v : Json) : Option (List Beacon) := (jArrE v).bind (mapMOpt decodeBeacon)

def jLocationList (v : Json) : Option (List Location) :=
  (jArrE v).bind (mapMOpt decodeLocation)

/-- Flattened tail of the `Pass` deserializer: the externally tagged `Style`
enum consumes the first buffered key matching a variant tag, then the two
flattened optional structs consume the rest in declaration order. -/
def decodeVisualWs (buf1 : List (String × Json)) :
    Option (Option VisualAppearance × Option WebService) := do
  let visual ← if buf1.isEmpty then some none else (parseVisualFM buf1).map some
  let buf2 := buf1.filter (fun kv => !(visualKeys.contains kv.1))
  let webService ← if buf2.isEmpty then some none
    else (parseWebServiceFM buf2).map some
  some (visual, webService)

def decodePassFlat (buf : List (String × Json)) :
    Option (Style × Option VisualAppearance × Option WebService) := do
  let st ← extractFirst (fun k => styleTags.contains k) buf
  let style ← decodeStyleTag st.1.1 st.1.2
  let vw ← decodeVisualWs st.2
  some (style, vw.1, vw.2)

/-- Required identity and header fields of `Pass` (no serde default). -/
def decodePassReq (kvs : List (String × Json)) :
    Option (String × Int × String × String × String × String) := do
  let description ← getReq kvs "description" jStr
  let formatVersion ← getReq kvs "formatVersion" jI32
  let organizationName ← getReq kvs "organizationName" jStr
  let passTypeIdentifier ← getReq kvs "passTypeIdentifier" jStr
  let serialNumber ← getReq kvs "serialNumber" jStr
  let teamIdentifier ← getReq kvs "teamIdentifier" jStr
  some (description, formatVersion, organizationName, passTypeIdentifier,
    serialNumber, teamIdentifier)

/-- Optional and defaulted named fields of `Pass`, first group. -/
def decodePassOptA (kvs : List (String × Json)) :
    Option (Option String × List Int × List (String × String) × Option String × Bool) := do
  let appLaunchUrl ← getOpt kvs "appLaunchURL" jStr
  let associatedStoreIdentifiers ← getD kvs "associatedStoreIdentifiers" jI32List []
  let userInfo ← getD kvs "userInfo" jStrPairs []
  let expirationDate ← getOpt kvs "expirationDate" jStr
  let voided ← getD kvs "voided" jBool false
  some (appLaunchUrl, associatedStoreIdentifiers, userInfo, expirationDate, voided)

/-- Optional and defaulted named fields of `Pass`, second group. -/
def decodePassOptB (kvs : List (String × Json)) :
    Option (List Beacon × List Location × Option Nat × Option String × Option NFC) := do
  let beacons ← getD kvs "beacons" jBeaconList []
  let locations ← getD kvs "locations" jLocationList []
  let maxDistance ← getOpt kvs "maxDistance" jU32
  let relevantDate ← getOpt kvs "relevantDate" jStr
  let nfc ← getOpt kvs "nfc" decodeNfc
  some (beacons, locations, maxDistance, relevantDate, nfc)

/-- Model of `serde_json::from_*::<Pass>` on a JSON value tree: named fields
are matched by key; all other keys are buffered for the flattened fields. -/
def decodePass : Json → Option Pass
  | .obj kvs => do
      let req ← decodePassReq kvs
      let optA ← decodePassOptA kvs
      let optB ← decodePassOptB kvs
      let flat ← decodePassFlat (kvs.filter (fun kv => !(passNamedKeys.contains kv.1)))
      some (Pass.mk req.1 req.2.1 req.2.2.1 req.2.2.2.1 req.2.2.2.2.1 req.2.2.2.2.2
        optA.1 optA.2.1 optA.2.2.1 optA.2.2.2.1 optA.2.2.2.2
        optB.1 optB.2.1 optB.2.2.1 optB.2.2.2.1
        flat.1 flat.2.1 flat.2.2 optB.2.2.2.2)
  | _ => none

/-! ## File-system model for `src/lib.rs`.

Files live one level deep inside directories addressed by a path string
(matching the one-level `fs::read_dir` walk of `copy_source_files_to`).
File contents are either opaque bytes or the text of a JSON tree (the shape
`serde_json::to_string_pretty` writes); `contentBytes` gives the raw bytes
that hashing sees. An `Entry` carries an `isFile` flag (`fs::copy` fails on
directories) and a `readable` flag modelling I/O failures on open/read. -/

inductive FileContent where
  | bytes (bs : List Nat)
  | jsonText (j : Json)

def contentBytes : FileContent → List Nat
  | .bytes bs => bs
  | .jsonText j => stringBytes (renderJson j)

structure Entry where
  name : String
  isFile : Bool
  readable : Bool
  content : FileContent

structure Fs where
  dirs : List (String × List Entry)
  canCreateTemp : Bool

def Fs.readDir (fs : Fs) (p : String) : Option (List Entry) :=
  (fs.dirs.find? (fun d => d.1 == p)).map (fun d => d.2)

def Fs.dirExists (fs : Fs) (p : String) : Bool :=
  fs.dirs.any (fun d => d.1 == p)

def Fs.addDir (fs : Fs) (p : String) : Fs :=
  ⟨fs.dirs ++ [(p, [])], fs.canCreateTemp⟩

def Fs.removeDir (fs : Fs) (p : String) : Fs :=
  ⟨fs.dirs.filter (fun d => !(d.1 == p)), fs.canCreateTemp⟩

def upsertEntry : List Entry → Entry → List Entry
  | [], e => [e]
  | x :: rest, e => if x.name == e.name then e :: rest else x :: upsertEntry rest e

/-- Write or overwrite a file entry in the directory at path `p`. -/
def Fs.addFile (fs : Fs) (p : String) (e : Entry) : Fs :=
  ⟨fs.dirs.map (fun d => if d.1 == p then (d.1, upsertEntry d.2 e) else d),
   fs.canCreateTemp⟩

def Fs.findFile (fs : Fs) (p : String) (name : String) : Option Entry :=
  (fs.readDir p).bind (fun es => es.find? (fun e => e.name == name))

/-- Model of `Path::exists` for `source_directory/pass.json`: any entry of
that name (file or directory) counts. -/
def entryExists (fs : Fs) (p : String) (name : String) : Bool :=
  match fs.readDir p with
  | some es => es.any (fun e => e.name == name)
  | none => false

/-! ## Embedding of `src/lib.rs` (`PassCreateError`, `PassSource`, the
`build_pkpass` pipeline). `TempDir`'s scoped drop (`remove_dir_all` when the
value goes out of scope) is made explicit: every exit of `build_pkpass` after
`create_tmp_dir` succeeded removes the temporary directory. -/

inductive PassCreateError where
  | CantReadTempDir
  | CantReadEntry (cause : String)
  | CantParsePassFile (cause : String)
  | PassContentNotFound
  | CantCreateTempDir
  | CantCopySourceToTemp
  | CantSerializePass
  | CantWritePassFile (cause : String)
  | CantCalculateHashes
deriving DecidableEq, Repr

/-- Payload carried by an error value, when it has one: which path or entry
the error names. -/
def PassCreateError.names : PassCreateError → Option String
  | .CantReadEntry cause => some cause
  | .CantParsePassFile cause => some cause
  | .CantWritePassFile cause => some cause
  | _ => none

/-- Debug formatting of an `OsString` file name (`format!` with the `:?`
specifier), as used for manifest keys: the name is wrapped in quotes. -/
def debugQuote (s : String) : String := "\"" ++ s ++ "\""

structure PassSource where
  sourceDirectory : String
  manifest : List (String × String)
  passContent : Option Pass

def PassSource.new (source : String) : PassSource := ⟨source, [], none⟩

def PassSource.addPass (src : PassSource) (p : Pass) : PassSource :=
  { src with passContent := some p }

def isPassFileExistsInSource (src : PassSource) (fs : Fs) : Bool :=
  entryExists fs src.sourceDirectory "pass.json"

/-- Model of `serde_json::from_slice::<Pass>` on file content. Opaque bytes
are not a JSON rendering of a `Pass`, so they fail to parse. -/
def fromSlicePass : FileContent → Option Pass
  | .jsonText j => decodePass j
  | .bytes _ => none

def readPassFileFromSource (src : PassSource) (fs : Fs) :
    Except PassCreateError Pass :=
  match fs.findFile src.sourceDirectory "pass.json" with
  | some e =>
      if e.isFile && e.readable then
        match fromSlicePass e.content with
        | some p => .ok p
        | none => .error (.CantParsePassFile "invalid pass.json")
      else .error (.CantReadEntry "pass.json")
  | none => .error (.CantReadEntry "pass.json")

def resolvePassContent (src : PassSource) (fs : Fs) :
    Except PassCreateError PassSource :=
  if src.passContent.isNone && isPassFileExistsInSource src fs then
    match readPassFileFromSource src fs with
    | .ok p => .ok { src with passContent := some p }
    | .error e => .error e
  else .ok src

def createTmpDir (fs : Fs) (tmpPath : String) : Except PassCreateError Fs :=
  if fs.canCreateTemp then .ok (fs.addDir tmpPath) else .error .CantCreateTempDir

/-- Walk of the source directory entries: each entry is copied with
`fs::copy`, which succeeds only for readable regular files; the first failure
aborts the walk. Any failure is collapsed to `CantCopySourceToTemp`. -/
def copyEntries (dir : String) (fs : Fs) : List Entry → Except Unit Fs
  | [] => .ok fs
  | e :: rest =>
      if e.isFile && e.readable then
        copyEntries dir (fs.addFile dir ⟨e.name, true, e.readable, e.content⟩) rest
      else .error ()

def copySourceFilesTo (src : PassSource) (fs : Fs) (dir : String) :
    Except PassCreateError Fs :=
  match fs.readDir src.sourceDirectory with
  | some es =>
      match copyEntries dir fs es with
      | .ok fs1 => .ok fs1
      | .error _ => .error .CantCopySourceToTemp
  | none => .error .CantCopySourceToTemp

/-- Embedding of `write_pass_file_to`: the serialized pass is written only
when the source directory has no `pass.json`, and only when a pass was
resolved. Serialization and the write itself cannot fail in the model. -/
def writePassFileTo (src : PassSource) (fs : Fs) (dir : String) :
    Except PassCreateError Fs :=
  if !(isPassFileExistsInSource src fs) then
    match src.passContent with
    | some p =>
        .ok (fs.addFile dir ⟨"pass.json", true, true, .jsonText (encodePass p)⟩)
    | none => .ok fs
  else .ok fs

/-- Model of `HashMap::insert`: replace the value at an existing key,
otherwise append. -/
def mapInsert (m : List (String × String)) (k v : String) : List (String × String) :=
  if m.any (fun kv => kv.1 == k) then
    m.map (fun kv => if kv.1 == k then (k, v) else kv)
  else m ++ [(k, v)]

/-- Embedding of the `enumerate` loop of `calculate_hashes_of`: every regular
file is hashed under its Debug-formatted (quoted) name; an unreadable file
aborts with an error. -/
def enumerateEntries (m : List (String × String)) :
    List Entry → Except Unit (List (String × String))
  | [] => .ok m
  | e :: rest =>
      if e.isFile then
        if e.readable then
          enumerateEntries (mapInsert m (debugQuote e.name) (getHash (contentBytes e.content))) rest
        else .error ()
      else enumerateEntries m rest

def calculateHashesOf (src : PassSource) (fs : Fs) (dir : String) :
    Except PassCreateError PassSource :=
  match fs.readDir dir with
  | some es =>
      match enumerateEntries [] es with
      | .ok m => .ok { src with manifest := m }
      | .error _ => .error .CantCalculateHashes
  | none => .error .CantCalculateHashes

/-- Embedding of `build_pkpass`. The result of each run is the returned
`PassResult`, the final `PassSource` state and the final file system. The
temporary directory `tmpPath` (fresh, chosen by `TempDir::new`) is removed on
every exit path once it was created. -/
def buildPkpass (src : PassSource) (fs : Fs) (tmpPath : String) :
    Except PassCreateError Unit × PassSource × Fs :=
  match resolvePassContent src fs with
  | .error e => (.error e, src, fs)
  | .ok src1 =>
    match createTmpDir fs tmpPath with
    | .error e => (.error e, src1, fs)
    | .ok fs1 =>
      match copySourceFilesTo src1 fs1 tmpPath with
      | .error e => (.error e, src1, fs1.removeDir tmpPath)
      | .ok fs2 =>
        match writePassFileTo src1 fs2 tmpPath with
        | .error e => (.error e, src1, fs2.removeDir tmpPath)
        | .ok fs3 =>
          match calculateHashesOf src1 fs3 tmpPath with
          | .error e => (.error e, src1, fs3.removeDir tmpPath)
          | .ok src2 => (.ok (), src2, fs3.removeDir tmpPath)

/-! ## Embedding of `PassBuilder` from `src/pass.rs`. Builder method calls
are reified as `BuilderOp` values so that properties can be stated over every
sequence of method calls; `applyOp` is a direct transcription of each method
body (`push` appends, setters overwrite). -/

structure PassBuilder where
  serialNumber : String
  passTypeIdentifier : String
  teamIdentifier : String
  organizationName : Option String
  description : Option String
  passStructure : Structure
  appLaunchUrl : Option String
  associatedStoreIdentifiers : List Int
  userInfo : List (String × String)
  expirationDate : Option String
  voided : Bool
  beacons : List Beacon
  locations : List Location
  maxDistance : Option Nat
  relevantDate : Option String
  visual : VisualAppearance
  webService : Option WebService
  nfc : Option NFC
deriving Repr

def PassBuilder.new (sn pti ti : String) : PassBuilder :=
  ⟨sn, pti, ti, none, none, Structure.defaultVal, none, [], [], none, false,
   [], [], none, none, VisualAppearance.defaultVal, none, none⟩

inductive BuilderOp where
  | organizationName (s : String)
  | description (s : String)
  | appLaunchUrl (s : String)
  | addAssociatedStoreIdentifier (i : Int)
  | addUserInfo (k v : String)
  | expirationDate (s : String)
  | voided
  | addBeacon (b : Beacon)
  | addLocation (l : Location)
  | maxDistance (n : Nat)
  | relevantDate (s : String)
  | addAuxiliaryField (f : PassField)
  | addBackField (f : PassField)
  | addHeaderField (f : PassField)
  | addPrimaryField (f : PassField)
  | addSecondaryField (f : PassField)
  | addBarcode (b : Barcode)
  | backgroundColor (s : String)
  | foregroundColor (s : String)
  | groupingIdentifier (s : String)
  | labelColor (s : String)
  | logoText (s : String)
  | suppressStripShine
  | webService (token url : String)
  | nfc (message : String) (key : Option String)

/-- Model of `HashMap::insert` for the builder's `user_info` map. -/
def userInfoInsert (m : List (String × String)) (k v : String) :
    List (String × String) :=
  if m.any (fun kv => kv.1 == k) then
    m.map (fun kv => if kv.1 == k then (k, v) else kv)
  else m ++ [(k, v)]

/-- One builder method call. Note `add_secondary_field` pushes onto
`auxiliary_fields` in the source. -/
def applyOp (b : PassBuilder) : BuilderOp → PassBuilder
  | .organizationName s => { b with organizationName := some s }
  | .description s => { b with description := some s }
  | .appLaunchUrl s => { b with appLaunchUrl := some s }
  | .addAssociatedStoreIdentifier i =>
      { b with associatedStoreIdentifiers := b.associatedStoreIdentifiers ++ [i] }
  | .addUserInfo k v => { b with userInfo := userInfoInsert b.userInfo k v }
  | .expirationDate s => { b with expirationDate := some s }
  | .voided => { b with voided := true }
  | .addBeacon be => { b with beacons := b.beacons ++ [be] }
  | .addLocation l => { b with locations := b.locations ++ [l] }
  | .maxDistance n => { b with maxDistance := some n }
  | .relevantDate s => { b with relevantDate := some s }
  | .addAuxiliaryField f =>
      { b with passStructure :=
          { b.passStructure with
              auxiliaryFields := b.passStructure.auxiliaryFields ++ [f] } }
  | .addBackField f =>
      { b with passStructure :=
          { b.passStructure with backFields := b.passStructure.backFields ++ [f] } }
  | .addHeaderField f =>
      { b with passStructure :=
          { b.passStructure with headerFields := b.passStructure.headerFields ++ [f] } }
  | .addPrimaryField f =>
      { b with passStructure :=
          { b.passStructure with
              primaryFields := b.passStructure.primaryFields ++ [f] } }
  | .addSecondaryField f =>
      { b with passStructure :=
          { b.passStructure with
              auxiliaryFields := b.passStructure.auxiliaryFields ++ [f] } }
  | .addBarcode bc => { b with visual := { b.visual with barcodes := b.visual.barcodes ++ [bc] } }
  | .backgroundColor s => { b with visual := { b.visual with backgroundColor := some s } }
  | .foregroundColor s => { b with visual := { b.visual with foregroundColor := some s } }
  | .groupingIdentifier s =>
      { b with visual := { b.visual with groupingIdentifier := some s } }
  | .labelColor s => { b with visual := { b.visual with labelColor := some s } }
  | .logoText s => { b with visual := { b.visual with logoText := some s } }
  | .suppressStripShine => { b with visual := { b.visual with suppressStripShine := true } }
  | .webService token url => { b with webService := some ⟨token, url⟩ }
  | .nfc message key => { b with nfc := some ⟨message, key⟩ }

def applyOps (b : PassBuilder) (ops : List BuilderOp) : PassBuilder :=
  ops.foldl applyOp b

/-- Embedding of the private `PassBuilder::build`. -/
def PassBuilder.build (b : PassBuilder) (style : Style) : Pass :=
  ⟨b.description.getD "", 1, b.organizationName.getD "", b.passTypeIdentifier,
   b.serialNumber, b.teamIdentifier, b.appLaunchUrl, b.associatedStoreIdentifiers,
   b.userInfo, b.expirationDate, b.voided, b.beacons, b.locations, b.maxDistance,
   b.relevantDate, style, some b.visual, b.webService, b.nfc⟩

def finishBoardingPass (b : PassBuilder) (transitType : TransitType) : Pass :=
  b.build (.boardingPass { b.passStructure with transitType := some transitType })

def finishCoupon (b : PassBuilder) : Pass := b.build (.coupon b.passStructure)

def finishEventTicket (b : PassBuilder) : Pass := b.build (.eventTicket b.passStructure)

def finishGeneric (b : PassBuilder) : Pass := b.build (.generic b.passStructure)

def finishStoreCard (b : PassBuilder) : Pass := b.build (.storeCard b.passStructure)

/-- Transit-type tag carried by a pass, through its style's structure. -/
def transitTypeOfPass (p : Pass) : Option TransitType :=
  p.style.structureOf.transitType

/-! ## Lookup lemmas for the encoder combinators -/

lemma jLookup_nil (k : String) : jLookup [] k = none := rfl

lemma jLookup_cons (kv : String × Json) (rest : List (String × Json)) (k : String) :
    jLookup (kv :: rest) k = if kv.1 == k then some kv.2 else jLookup rest k := by
  cases kv
  rfl

lemma jLookup_append (xs ys : List (String × Json)) (k : String) :
    jLookup (xs ++ ys) k = (jLookup xs k).or (jLookup ys k) := by
  induction xs with
  | nil => simp [jLookup]
  | cons kv rest ih =>
      by_cases h : (kv.1 == k) = true
      · simp [jLookup_cons, h]
      · simp only [Bool.not_eq_true] at h
        simp [jLookup_cons, h, ih]

lemma jLookup_reqKV (k0 k : String) (j : Json) :
    jLookup (reqKV k0 j) k = if k0 == k then some j else none := by
  simp [reqKV, jLookup_cons, jLookup_nil]

lemma jLookup_optKV (k0 k : String) (f : α → Json) (o : Option α) :
    jLookup (optKV k0 f o) k = if k0 == k then o.map f else none := by
  cases o with
  | none => simp [optKV, jLookup]
  | some a =>
      by_cases h : (k0 == k) = true <;>
        simp [optKV, jLookup_cons, jLookup_nil, h]

lemma jLookup_listKV (k0 k : String) (f : α → Json) (xs : List α) :
    jLookup (listKV k0 f xs) k
      = if xs.isEmpty then none
        else if k0 == k then some (.arr (xs.map f)) else none := by
  unfold listKV
  by_cases he : xs.isEmpty <;> simp [he, jLookup_cons, jLookup_nil]

lemma jLookup_boolKV (k0 k : String) (b : Bool) :
    jLookup (boolKV k0 b) k
      = if b then (if k0 == k then some (.bool true) else none) else none := by
  unfold boolKV
  cases b <;> simp [jLookup_cons, jLookup_nil]

/-! ## Round-trip lemmas for leaf codecs -/

lemma decode_encode_dataDetectorType (v : DataDetectorType) :
    decodeDataDetectorType (encodeDataDetectorType v) = some v := by
  cases v <;> rfl

lemma decode_encode_textAlignment (v : TextAlignment) :
    decodeTextAlignment (encodeTextAlignment v) = some v := by
  cases v <;> rfl

lemma decode_encode_dateTimeStyle (v : DateTimeStyle) :
    decodeDateTimeStyle (encodeDateTimeStyle v) = some v := by
  cases v <;> rfl

lemma decode_encode_numberStyle (v : NumberStyle) :
    decodeNumberStyle (encodeNumberStyle v) = some v := by
  cases v <;> rfl

lemma decode_encode_transitType (v : TransitType) :
    decodeTransitType (encodeTransitType v) = some v := by
  cases v <;> rfl

lemma decode_encode_barcodeFormat (v : BarcodeFormat) :
    decodeBarcodeFormat (encodeBarcodeFormat v) = some v := by
  cases v <;> rfl

def valueWf : Value → Bool
  | .int i => fits32 i
  | _ => true

lemma decode_encode_value (v : Value) (h : valueWf v = true) :
    decodeValue (encodeValue v) = some v := by
  cases v with
  | str s => rfl
  | int i => simp [valueWf] at h; simp [encodeValue, decodeValue, h]
  | float f => rfl

lemma mapM_decode_encode_dataDetectorType (l : List DataDetectorType) :
    mapMOpt decodeDataDetectorType (l.map encodeDataDetectorType) = some l := by
  induction l with
  | nil => rfl
  | cons hd tl ih => simp [mapMOpt, decode_encode_dataDetectorType, ih]

/-! ## Lookup lemmas for the flattened segments -/

lemma jLookup_alignKV (a : TextAlignment) (k : String) :
    jLookup (alignKV a) k
      = if a.isNatural then none
        else if "textAlignment" == k then some (encodeTextAlignment a) else none := by
  unfold alignKV
  cases a <;> simp [TextAlignment.isNatural, jLookup_cons, jLookup_nil]

lemma jLookup_styleKV_ne (st : Style) (k : String)
    (h1 : ("boardingPass" == k) = false) (h2 : ("coupon" == k) = false)
    (h3 : ("eventTicket" == k) = false) (h4 : ("generic" == k) = false)
    (h5 : ("storeCard" == k) = false) :
    jLookup (styleKV st) k = none := by
  cases st <;> simp [styleKV, jLookup_cons, jLookup_nil, h1, h2, h3, h4, h5]

lemma jLookup_wsKVs_ne (ws : Option WebService) (k : String)
    (h1 : ("authenticationToken" == k) = false)
    (h2 : ("webServiceURL" == k) = false) :
    jLookup (wsKVs ws) k = none := by
  cases ws <;> simp [wsKVs, jLookup_cons, jLookup_nil, h1, h2]

lemma jLookup_visualKVs_ne (vis : Option VisualAppearance) (k : String)
    (h1 : ("barcodes" == k) = false) (h2 : ("backgroundColor" == k) = false)
    (h3 : ("foregroundColor" == k) = false) (h4 : ("groupingIdentifier" == k) = false)
    (h5 : ("labelColor" == k) = false) (h6 : ("logoText" == k) = false)
    (h7 : ("suppressStripShine" == k) = false) :
    jLookup (visualKVs vis) k = none := by
  cases vis with
  | none => rfl
  | some v =>
      simp [visualKVs, encodeVisualKVs, jLookup_append, jLookup_listKV,
            jLookup_optKV, jLookup_boolKV, h1, h2, h3, h4, h5, h6, h7]

lemma jLookup_dateKVs_ne (o : Option FieldDate) (k : String)
    (h1 : ("dateStyle" == k) = false) (h2 : ("ignoresTimeZone" == k) = false)
    (h3 : ("isRelative" == k) = false) (h4 : ("timeStyle" == k) = false) :
    jLookup (dateKVs o) k = none := by
  cases o with
  | none => rfl
  | some d =>
      simp [dateKVs, jLookup_append, jLookup_reqKV, jLookup_boolKV, h1, h2, h3, h4]

lemma jLookup_numberKVs_ne (o : Option FieldNumber) (k : String)
    (h1 : ("currencyCode" == k) = false) (h2 : ("numberStyle" == k) = false) :
    jLookup (numberKVs o) k = none := by
  cases o with
  | none => rfl
  | some n => simp [numberKVs, jLookup_append, jLookup_reqKV, h1, h2]

/-! ## Reduction lemmas for the field accessors -/

lemma getReq_of_lookup (kvs : List (String × Json)) (k : String) (f : Json → Option α)
    (v : Json) (h : jLookup kvs k = some v) : getReq kvs k f = f v := by
  simp [getReq, h]

lemma getD_of_lookup (kvs : List (String × Json)) (k : String) (f : Json → Option α)
    (d : α) (v : Json) (h : jLookup kvs k = some v) : getD kvs k f d = f v := by
  simp [getD, h]

lemma getD_of_lookup_none (kvs : List (String × Json)) (k : String) (f : Json → Option α)
    (d : α) (h : jLookup kvs k = none) : getD kvs k f d = some d := by
  simp [getD, h]

lemma getOpt_of_lookup_none (kvs : List (String × Json)) (k : String)
    (f : Json → Option α) (h : jLookup kvs k = none) : getOpt kvs k f = some none := by
  simp [getOpt, h]

lemma getOpt_str_of_lookup (kvs : List (String × Json)) (k : String) (o : Option String)
    (h : jLookup kvs k = o.map Json.str) : getOpt kvs k jStr = some o := by
  cases o <;> simp [getOpt, h, jStr]

/-! ## Round trips for the small structs -/

def beaconWf (b : Beacon) : Bool :=
  (match b.major with | some n => decide (n < 65536) | none => true)
    && (match b.minor with | some n => decide (n < 65536) | none => true)

lemma decode_encode_beacon (b : Beacon) (hb : beaconWf b = true) :
    decodeBeacon (encodeBeacon b) = some b := by
  obtain ⟨uuid, major, minor, rtext⟩ := b
  simp only [beaconWf, Bool.and_eq_true] at hb
  obtain ⟨h1, h2⟩ := hb
  simp [encodeBeacon, decodeBeacon, getD, getOpt, getReq, jLookup_append,
        jLookup_reqKV, jLookup_optKV, jLookup_nil, jStr, jU16]
  cases major <;> cases minor <;> cases rtext <;> simp_all [jU16, jStr]

lemma decode_encode_location (l : Location) :
    decodeLocation (encodeLocation l) = some l := by
  obtain ⟨alt, lat, lon, rtext⟩ := l
  simp [encodeLocation, decodeLocation, getOpt, jLookup_append,
        jLookup_optKV, jLookup_nil, jF64, jStr]
  cases alt <;> cases lat <;> cases lon <;> cases rtext <;> simp_all [jF64, jStr]

lemma decode_encode_barcode (b : Barcode) :
    decodeBarcode (encodeBarcode b) = some b := by
  obtain ⟨msg, fmt, enc, alt⟩ := b
  simp [encodeBarcode, decodeBarcode, getReq, getOpt, jLookup_append,
        jLookup_reqKV, jLookup_optKV, jLookup_nil, jStr,
        decode_encode_barcodeFormat]
  cases alt <;> simp_all [jStr]

lemma decode_encode_nfc (n : NFC) : decodeNfc (encodeNfc n) = some n := by
  obtain ⟨msg, key⟩ := n
  cases key <;>
    simp [encodeNfc, decodeNfc, getReq, getOpt, jLookup_cons, jLookup_nil, jStr]

lemma mapMOpt_decode_encode_beacon (l : List Beacon) (h : l.all beaconWf = true) :
    mapMOpt decodeBeacon (l.map encodeBeacon) = some l := by
  induction l with
  | nil => rfl
  | cons hd tl ih =>
      simp only [List.all_cons, Bool.and_eq_true] at h
      simp [mapMOpt, decode_encode_beacon hd h.1, ih h.2]

lemma mapMOpt_decode_encode_location (l : List Location) :
    mapMOpt decodeLocation (l.map encodeLocation) = some l := by
  induction l with
  | nil => rfl
  | cons hd tl ih => simp [mapMOpt, decode_encode_location, ih]

lemma mapMOpt_decode_encode_barcode (l : List Barcode) :
    mapMOpt decodeBarcode (l.map encodeBarcode) = some l := by
  induction l with
  | nil => rfl
  | cons hd tl ih => simp [mapMOpt, decode_encode_barcode, ih]

lemma mapMOpt_jI32_encode (l : List Int) (h : l.all (fun i => fits32 i) = true) :
    mapMOpt jI32 (l.map (fun i => Json.int i)) = some l := by
  induction l with
  | nil => rfl
  | cons hd tl ih =>
      simp only [List.all_cons, Bool.and_eq_true] at h
      simp [mapMOpt, jI32, h.1, ih h.2]

lemma jStrPairs_encodeUserInfo (ui : List (String × String)) :
    jStrPairs (encodeUserInfo ui) = some ui := by
  have : ∀ l : List (String × String),
      mapMOpt (fun kv => (jStr kv.2).map (fun s => (kv.1, s)))
        (l.map (fun kv => (kv.1, Json.str kv.2))) = some l := by
    intro l
    induction l with
    | nil => rfl
    | cons hd tl ih =>
        simp only [List.map_cons, mapMOpt]
        rw [ih]
        rfl
  simpa [jStrPairs, encodeUserInfo] using this ui

/-! ## Filter lemmas: which combinator segments the flatten buffer keeps -/

lemma filter_reqKV_mem (names : List String) (k0 : String) (j : Json)
    (h : names.contains k0 = true) :
    (reqKV k0 j).filter (fun kv => !(names.contains kv.1)) = [] := by
  have h' : k0 ∈ names := by simpa using h
  simp [reqKV, h']

lemma filter_reqKV_not_mem (names : List String) (k0 : String) (j : Json)
    (h : names.contains k0 = false) :
    (reqKV k0 j).filter (fun kv => !(names.contains kv.1)) = reqKV k0 j := by
  have h' : k0 ∉ names := by simpa using h
  simp [reqKV, h']

lemma filter_optKV_mem (names : List String) (k0 : String) (f : α → Json) (o : Option α)
    (h : names.contains k0 = true) :
    (optKV k0 f o).filter (fun kv => !(names.contains kv.1)) = [] := by
  have h' : k0 ∈ names := by simpa using h
  cases o <;> simp [optKV, h']

lemma filter_optKV_not_mem (names : List String) (k0 : String) (f : α → Json) (o : Option α)
    (h : names.contains k0 = false) :
    (optKV k0 f o).filter (fun kv => !(names.contains kv.1)) = optKV k0 f o := by
  have h' : k0 ∉ names := by simpa using h
  cases o <;> simp [optKV, h']

lemma filter_listKV_mem (names : List String) (k0 : String) (f : α → Json) (xs : List α)
    (h : names.contains k0 = true) :
    (listKV k0 f xs).filter (fun kv => !(names.contains kv.1)) = [] := by
  have h' : k0 ∈ names := by simpa using h
  unfold listKV
  by_cases he : xs.isEmpty <;> simp [he, h']

lemma filter_listKV_not_mem (names : List String) (k0 : String) (f : α → Json) (xs : List α)
    (h : names.contains k0 = false) :
    (listKV k0 f xs).filter (fun kv => !(names.contains kv.1)) = listKV k0 f xs := by
  have h' : k0 ∉ names := by simpa using h
  unfold listKV
  by_cases he : xs.isEmpty <;> simp [he, h']

lemma filter_boolKV_mem (names : List String) (k0 : String) (b : Bool)
    (h : names.contains k0 = true) :
    (boolKV k0 b).filter (fun kv => !(names.contains kv.1)) = [] := by
  have h' : k0 ∈ names := by simpa using h
  cases b <;> simp [boolKV, h']

lemma filter_boolKV_not_mem (names : List String) (k0 : String) (b : Bool)
    (h : names.contains k0 = false) :
    (boolKV k0 b).filter (fun kv => !(names.contains kv.1)) = boolKV k0 b := by
  have h' : k0 ∉ names := by simpa using h
  cases b <;> simp [boolKV, h']

lemma filter_alignKV_mem (names : List String) (a : TextAlignment)
    (h : names.contains "textAlignment" = true) :
    (alignKV a).filter (fun kv => !(names.contains kv.1)) = [] := by
  have h' : "textAlignment" ∈ names := by simpa using h
  unfold alignKV
  cases a <;> simp [TextAlignment.isNatural, h']

/-! ## Round trip for the flattened `FieldDate` and `FieldNumber` side-structs -/

lemma parseFieldNumberFM_encode (n : FieldNumber) :
    parseFieldNumberFM (numberKVs (some n)) = some n := by
  obtain ⟨cc, ns⟩ := n
  simp [parseFieldNumberFM, numberKVs, getD, jLookup_append, jLookup_reqKV,
        jLookup_nil, jStr, decode_encode_numberStyle]

lemma parseFieldDateFM_encode (d : FieldDate) (tail : List (String × Json))
    (h1 : jLookup tail "dateStyle" = none) (h2 : jLookup tail "ignoresTimeZone" = none)
    (h3 : jLookup tail "isRelative" = none) (h4 : jLookup tail "timeStyle" = none) :
    parseFieldDateFM (dateKVs (some d) ++ tail) = some d := by
  obtain ⟨ds, itz, ir, ts⟩ := d
  cases itz <;> cases ir <;>
    simp [parseFieldDateFM, dateKVs, getD, jLookup_append, jLookup_reqKV,
          jLookup_boolKV, h1, h2, h3, h4, jBool, decode_encode_dateTimeStyle]

/-! ## Round trip for `PassField` -/

def fieldSafe (f : PassField) : Bool :=
  valueWf f.value && (f.number.isNone || f.date.isSome)

lemma getOpt_arrmap_of_lookup (kvs : List (String × Json)) (k : String)
    (dec : Json → Option α) (enc : α → Json) (o : Option (List α))
    (h : jLookup kvs k = o.map (fun l => Json.arr (l.map enc)))
    (hmap : ∀ l, mapMOpt dec (l.map enc) = some l) :
    getOpt kvs k (fun v => (jArrE v).bind (mapMOpt dec)) = some o := by
  cases o <;> simp [getOpt, h, jArrE, hmap]

lemma filter_dateKVs_keep (o : Option FieldDate) :
    (dateKVs o).filter (fun kv => !(fieldNamedKeys.contains kv.1)) = dateKVs o := by
  cases o with
  | none => rfl
  | some d =>
      simp only [dateKVs, List.filter_append]
      rw [filter_reqKV_not_mem _ _ _ (by decide), filter_boolKV_not_mem _ _ _ (by decide),
          filter_boolKV_not_mem _ _ _ (by decide), filter_reqKV_not_mem _ _ _ (by decide)]

lemma filter_numberKVs_keep (o : Option FieldNumber) :
    (numberKVs o).filter (fun kv => !(fieldNamedKeys.contains kv.1)) = numberKVs o := by
  cases o with
  | none => rfl
  | some n =>
      simp only [numberKVs, List.filter_append]
      rw [filter_reqKV_not_mem _ _ _ (by decide), filter_reqKV_not_mem _ _ _ (by decide)]

lemma filter_dateKVs_drop (o : Option FieldDate) :
    (dateKVs o).filter (fun kv => !(dateKeys.contains kv.1)) = [] := by
  cases o with
  | none => rfl
  | some d =>
      simp only [dateKVs, List.filter_append]
      rw [filter_reqKV_mem _ _ _ (by decide), filter_boolKV_mem _ _ _ (by decide),
          filter_boolKV_mem _ _ _ (by decide), filter_reqKV_mem _ _ _ (by decide)]
      rfl

lemma filter_numberKVs_keep2 (o : Option FieldNumber) :
    (numberKVs o).filter (fun kv => !(dateKeys.contains kv.1)) = numberKVs o := by
  cases o with
  | none => rfl
  | some n =>
      simp only [numberKVs, List.filter_append]
      rw [filter_reqKV_not_mem _ _ _ (by decide), filter_reqKV_not_mem _ _ _ (by decide)]

lemma fieldBuf (f : PassField) :
    (encodeFieldKVs f).filter (fun kv => !(fieldNamedKeys.contains kv.1))
      = dateKVs f.date ++ numberKVs f.number := by
  simp only [encodeFieldKVs, List.filter_append]
  rw [filter_optKV_mem _ _ _ _ (by decide), filter_optKV_mem _ _ _ _ (by decide),
      filter_optKV_mem _ _ _ _ (by decide), filter_reqKV_mem _ _ _ (by decide),
      filter_optKV_mem _ _ _ _ (by decide), filter_alignKV_mem _ _ (by decide),
      filter_reqKV_mem _ _ _ (by decide), filter_dateKVs_keep, filter_numberKVs_keep]
  simp

lemma decodeFieldFlat_encode (dt : Option FieldDate) (num : Option FieldNumber)
    (h : num.isSome = true → dt.isSome = true) :
    decodeFieldFlat (dateKVs dt ++ numberKVs num) = some (dt, num) := by
  cases dt with
  | some d =>
      have hdate : parseFieldDateFM (dateKVs (some d) ++ numberKVs num) = some d :=
        parseFieldDateFM_encode d _
          (jLookup_numberKVs_ne _ _ (by decide) (by decide))
          (jLookup_numberKVs_ne _ _ (by decide) (by decide))
          (jLookup_numberKVs_ne _ _ (by decide) (by decide))
          (jLookup_numberKVs_ne _ _ (by decide) (by decide))
      have hbuf2 : (dateKVs (some d) ++ numberKVs num).filter
          (fun kv => !(dateKeys.contains kv.1)) = numberKVs num := by
        rw [List.filter_append, filter_dateKVs_drop, filter_numberKVs_keep2]
        simp
      have hne : (dateKVs (some d) ++ numberKVs num).isEmpty = false := by
        simp [dateKVs, reqKV]
      cases num with
      | some n =>
          rw [decodeFieldFlat, hne, hdate]
          simp only [Option.map_some, Option.some_bind, hbuf2]
          rw [show (numberKVs (some n)).isEmpty = false by simp [numberKVs, reqKV],
              parseFieldNumberFM_encode]
          rfl
      | none =>
          rw [decodeFieldFlat, hne, hdate]
          simp only [Option.map_some, Option.some_bind, hbuf2]
          rfl
  | none =>
      have hnum : num = none := by
        cases num with
        | none => rfl
        | some n => exact absurd (h rfl) (by simp)
      subst hnum
      rfl

lemma decode_encode_field (f : PassField) (hf : fieldSafe f = true) :
    decodePassField (encodePassField f) = some f := by
  obtain ⟨av, cm, ddt, key, lbl, ta, v, dt, num⟩ := f
  simp only [fieldSafe, Bool.and_eq_true, Bool.or_eq_true] at hf
  obtain ⟨hv, hnd⟩ := hf
  have l1 : jLookup (encodeFieldKVs ⟨av, cm, ddt, key, lbl, ta, v, dt, num⟩)
      "attributedValue" = av.map Json.str := by
    simp [encodeFieldKVs, jLookup_append, jLookup_optKV, jLookup_reqKV,
          jLookup_alignKV, jLookup_dateKVs_ne, jLookup_numberKVs_ne]
  have l2 : jLookup (encodeFieldKVs ⟨av, cm, ddt, key, lbl, ta, v, dt, num⟩)
      "changeMessage" = cm.map Json.str := by
    simp [encodeFieldKVs, jLookup_append, jLookup_optKV, jLookup_reqKV,
          jLookup_alignKV, jLookup_dateKVs_ne, jLookup_numberKVs_ne]
  have l3 : jLookup (encodeFieldKVs ⟨av, cm, ddt, key, lbl, ta, v, dt, num⟩)
      "dataDetectorTypes"
      = ddt.map (fun l => Json.arr (l.map encodeDataDetectorType)) := by
    simp [encodeFieldKVs, jLookup_append, jLookup_optKV, jLookup_reqKV,
          jLookup_alignKV, jLookup_dateKVs_ne, jLookup_numberKVs_ne]
  have l4 : jLookup (encodeFieldKVs ⟨av, cm, ddt, key, lbl, ta, v, dt, num⟩)
      "key" = some (.str key) := by
    simp [encodeFieldKVs, jLookup_append, jLookup_optKV, jLookup_reqKV,
          jLookup_alignKV, jLookup_dateKVs_ne, jLookup_numberKVs_ne]
  have l5 : jLookup (encodeFieldKVs ⟨av, cm, ddt, key, lbl, ta, v, dt, num⟩)
      "label" = lbl.map Json.str := by
    simp [encodeFieldKVs, jLookup_append, jLookup_optKV, jLookup_reqKV,
          jLookup_alignKV, jLookup_dateKVs_ne, jLookup_numberKVs_ne]
  have l6 : jLookup (encodeFieldKVs ⟨av, cm, ddt, key, lbl, ta, v, dt, num⟩)
      "textAlignment"
      = if ta.isNatural then none else some (encodeTextAlignment ta) := by
    simp [encodeFieldKVs, jLookup_append, jLookup_optKV, jLookup_reqKV,
          jLookup_alignKV, jLookup_dateKVs_ne, jLookup_numberKVs_ne]
  have l7 : jLookup (encodeFieldKVs ⟨av, cm, ddt, key, lbl, ta, v, dt, num⟩)
      "value" = some (encodeValue v) := by
    simp [encodeFieldKVs, jLookup_append, jLookup_optKV, jLookup_reqKV,
          jLookup_alignKV, jLookup_dateKVs_ne, jLookup_numberKVs_ne]
  have g1 := getOpt_str_of_lookup _ _ _ l1
  have g2 := getOpt_str_of_lookup _ _ _ l2
  have g3 := getOpt_arrmap_of_lookup _ _ _ _ _ l3 mapM_decode_encode_dataDetectorType
  have g4 : getD (encodeFieldKVs ⟨av, cm, ddt, key, lbl, ta, v, dt, num⟩)
      "key" jStr "" = some key := by
    rw [getD_of_lookup _ _ _ _ _ l4]
    rfl
  have g5 := getOpt_str_of_lookup _ _ _ l5
  have g6 : getD (encodeFieldKVs ⟨av, cm, ddt, key, lbl, ta, v, dt, num⟩)
      "textAlignment" decodeTextAlignment TextAlignment.natural = some ta := by
    cases ta <;>
      simp [getD, l6, TextAlignment.isNatural, decode_encode_textAlignment]
  have g7 : getD (encodeFieldKVs ⟨av, cm, ddt, key, lbl, ta, v, dt, num⟩)
      "value" decodeValue Value.defaultVal = some v := by
    rw [getD_of_lookup _ _ _ _ _ l7]
    exact decode_encode_value v hv
  have hb : (encodeFieldKVs ⟨av, cm, ddt, key, lbl, ta, v, dt, num⟩).filter
      (fun kv => !(fieldNamedKeys.contains kv.1)) = dateKVs dt ++ numberKVs num :=
    fieldBuf ⟨av, cm, ddt, key, lbl, ta, v, dt, num⟩
  have hflat : decodeFieldFlat (dateKVs dt ++ numberKVs num) = some (dt, num) := by
    refine decodeFieldFlat_encode dt num ?_
    intro hs
    rcases hnd with h | h
    · rw [Option.isSome_iff_ne_none] at hs
      rw [Option.isNone_iff_eq_none] at h
      exact absurd h hs
    · exact h
  show decodePassField (.obj (encodeFieldKVs ⟨av, cm, ddt, key, lbl, ta, v, dt, num⟩))
      = some ⟨av, cm, ddt, key, lbl, ta, v, dt, num⟩
  rw [decodePassField, g1, g2, g3, g4, g5, g6, g7]
  simp only [Option.some_bind, hb, hflat]
  rfl

/-! ## Round trip for `Structure` -/

def structureSafe (s : Structure) : Bool :=
  s.auxiliaryFields.all fieldSafe && s.backFields.all fieldSafe
    && s.headerFields.all fieldSafe && s.primaryFields.all fieldSafe
    && s.secondaryFields.all fieldSafe

lemma mapMOpt_decode_encode_field (l : List PassField) (h : l.all fieldSafe = true) :
    mapMOpt decodePassField (l.map encodePassField) = some l := by
  induction l with
  | nil => rfl
  | cons hd tl ih =>
      simp only [List.all_cons, Bool.and_eq_true] at h
      simp [mapMOpt, decode_encode_field hd h.1, ih h.2]

lemma getD_arr_list (kvs : List (String × Json)) (k0 : String)
    (dec : Json → Option α) (enc : α → Json) (xs : List α)
    (hmap : mapMOpt dec (xs.map enc) = some xs)
    (hlk : jLookup kvs k0 = if xs.isEmpty then none else some (.arr (xs.map enc))) :
    getD kvs k0 (fun v => (jArrE v).bind (mapMOpt dec)) [] = some xs := by
  cases xs with
  | nil => simp [getD, hlk]
  | cons a as =>
      rw [getD_of_lookup _ _ _ _ _ (by simpa using hlk)]
      simpa [jArrE] using hmap

lemma getOpt_transit_of_lookup (kvs : List (String × Json)) (k : String)
    (o : Option TransitType) (h : jLookup kvs k = o.map encodeTransitType) :
    getOpt kvs k decodeTransitType = some o := by
  cases o with
  | none => simp [getOpt, h]
  | some tt => cases tt <;> simp [getOpt, h, encodeTransitType, decodeTransitType]

lemma decode_encode_structure (s : Structure) (hs : structureSafe s = true) :
    decodeStructure (encodeStructure s) = some s := by
  obtain ⟨aux, back, header, primary, secondary, tt⟩ := s
  simp only [structureSafe, Bool.and_eq_true] at hs
  obtain ⟨⟨⟨⟨h1, h2⟩, h3⟩, h4⟩, h5⟩ := hs
  have la : jLookup (encodeStructureKVs ⟨aux, back, header, primary, secondary, tt⟩)
      "auxiliaryFields"
      = if aux.isEmpty then none else some (.arr (aux.map encodePassField)) := by
    simp [encodeStructureKVs, jLookup_append, jLookup_listKV, jLookup_optKV]
  have lb : jLookup (encodeStructureKVs ⟨aux, back, header, primary, secondary, tt⟩)
      "backFields"
      = if back.isEmpty then none else some (.arr (back.map encodePassField)) := by
    simp [encodeStructureKVs, jLookup_append, jLookup_listKV, jLookup_optKV]
  have lh : jLookup (encodeStructureKVs ⟨aux, back, header, primary, secondary, tt⟩)
      "headerFields"
      = if header.isEmpty then none else some (.arr (header.map encodePassField)) := by
    simp [encodeStructureKVs, jLookup_append, jLookup_listKV, jLookup_optKV]
  have lp : jLookup (encodeStructureKVs ⟨aux, back, header, primary, secondary, tt⟩)
      "primaryFields"
      = if primary.isEmpty then none else some (.arr (primary.map encodePassField)) := by
    simp [encodeStructureKVs, jLookup_append, jLookup_listKV, jLookup_optKV]
  have ls : jLookup (encodeStructureKVs ⟨aux, back, header, primary, secondary, tt⟩)
      "secondaryFields"
      = if secondary.isEmpty then none else some (.arr (secondary.map encodePassField)) := by
    simp [encodeStructureKVs, jLookup_append, jLookup_listKV, jLookup_optKV]
  have lt : jLookup (encodeStructureKVs ⟨aux, back, header, primary, secondary, tt⟩)
      "transitType" = tt.map encodeTransitType := by
    simp [encodeStructureKVs, jLookup_append, jLookup_listKV, jLookup_optKV]
  have ga := getD_arr_list _ _ _ _ _ (mapMOpt_decode_encode_field aux h1) la
  have gb := getD_arr_list _ _ _ _ _ (mapMOpt_decode_encode_field back h2) lb
  have gh := getD_arr_list _ _ _ _ _ (mapMOpt_decode_encode_field header h3) lh
  have gp := getD_arr_list _ _ _ _ _ (mapMOpt_decode_encode_field primary h4) lp
  have gs := getD_arr_list _ _ _ _ _ (mapMOpt_decode_encode_field secondary h5) ls
  have gt := getOpt_transit_of_lookup _ _ _ lt
  show decodeStructure
      (.obj (encodeStructureKVs ⟨aux, back, header, primary, secondary, tt⟩))
      = some ⟨aux, back, header, primary, secondary, tt⟩
  rw [decodeStructure, ga, gb, gh, gp, gs, gt]
  rfl

/-! ## Round trip for the flattened `VisualAppearance` and `WebService` -/

lemma isEmpty_optKV (k : String) (f : α → Json) (o : Option α) :
    (optKV k f o).isEmpty = o.isNone := by
  cases o <;> rfl

lemma isEmpty_listKV (k : String) (f : α → Json) (xs : List α) :
    (listKV k f xs).isEmpty = xs.isEmpty := by
  unfold listKV
  by_cases h : xs.isEmpty <;> simp [h]

lemma isEmpty_boolKV (k : String) (b : Bool) : (boolKV k b).isEmpty = !b := by
  cases b <;> rfl

lemma optKV_eq_nil_iff (k : String) (f : α → Json) (o : Option α) :
    optKV k f o = [] ↔ o = none := by
  cases o <;> simp [optKV]

lemma listKV_eq_nil_iff (k : String) (f : α → Json) (xs : List α) :
    listKV k f xs = [] ↔ xs = [] := by
  unfold listKV
  by_cases h : xs.isEmpty <;> simp_all [List.isEmpty_iff]

lemma boolKV_eq_nil_iff (k : String) (b : Bool) : boolKV k b = [] ↔ b = false := by
  cases b <;> simp [boolKV]

lemma encodeVisualKVs_nil_imp (v : VisualAppearance)
    (h : (encodeVisualKVs v).isEmpty = true) : v = VisualAppearance.defaultVal := by
  obtain ⟨bars, bg, fg, gi, lc, lt, sss⟩ := v
  rw [List.isEmpty_iff] at h
  simp only [encodeVisualKVs, List.append_eq_nil, optKV_eq_nil_iff,
    listKV_eq_nil_iff, boolKV_eq_nil_iff] at h
  obtain ⟨⟨⟨⟨⟨⟨e1, e2⟩, e3⟩, e4⟩, e5⟩, e6⟩, e7⟩ := h
  subst e1 e2 e3 e4 e5 e6 e7
  rfl

lemma parseVisualFM_encode (v : VisualAppearance) (tail : List (String × Json))
    (h1 : jLookup tail "barcodes" = none)
    (h2 : jLookup tail "backgroundColor" = none)
    (h3 : jLookup tail "foregroundColor" = none)
    (h4 : jLookup tail "groupingIdentifier" = none)
    (h5 : jLookup tail "labelColor" = none)
    (h6 : jLookup tail "logoText" = none)
    (h7 : jLookup tail "suppressStripShine" = none) :
    parseVisualFM (encodeVisualKVs v ++ tail) = some v := by
  obtain ⟨bars, bg, fg, gi, lc, lt, sss⟩ := v
  have lb : jLookup (encodeVisualKVs ⟨bars, bg, fg, gi, lc, lt, sss⟩ ++ tail)
      "barcodes" = if bars.isEmpty then none else some (.arr (bars.map encodeBarcode)) := by
    simp [encodeVisualKVs, jLookup_append, jLookup_listKV, jLookup_optKV,
          jLookup_boolKV, h1]
  have l2 : jLookup (encodeVisualKVs ⟨bars, bg, fg, gi, lc, lt, sss⟩ ++ tail)
      "backgroundColor" = bg.map Json.str := by
    simp [encodeVisualKVs, jLookup_append, jLookup_listKV, jLookup_optKV,
          jLookup_boolKV, h2]
  have l3 : jLookup (encodeVisualKVs ⟨bars, bg, fg, gi, lc, lt, sss⟩ ++ tail)
      "foregroundColor" = fg.map Json.str := by
    simp [encodeVisualKVs, jLookup_append, jLookup_listKV, jLookup_optKV,
          jLookup_boolKV, h3]
  have l4 : jLookup (encodeVisualKVs ⟨bars, bg, fg, gi, lc, lt, sss⟩ ++ tail)
      "groupingIdentifier" = gi.map Json.str := by
    simp [encodeVisualKVs, jLookup_append, jLookup_listKV, jLookup_optKV,
          jLookup_boolKV, h4]
  have l5 : jLookup (encodeVisualKVs ⟨bars, bg, fg, gi, lc, lt, sss⟩ ++ tail)
      "labelColor" = lc.map Json.str := by
    simp [encodeVisualKVs, jLookup_append, jLookup_listKV, jLookup_optKV,
          jLookup_boolKV, h5]
  have l6 : jLookup (encodeVisualKVs ⟨bars, bg, fg, gi, lc, lt, sss⟩ ++ tail)
      "logoText" = lt.map Json.str := by
    simp [encodeVisualKVs, jLookup_append, jLookup_listKV, jLookup_optKV,
          jLookup_boolKV, h6]
  have l7 : jLookup (encodeVisualKVs ⟨bars, bg, fg, gi, lc, lt, sss⟩ ++ tail)
      "suppressStripShine" = if sss then some (.bool true) else none := by
    simp [encodeVisualKVs, jLookup_append, jLookup_listKV, jLookup_optKV,
          jLookup_boolKV, h7]
  have gb := getD_arr_list _ _ _ _ _ (mapMOpt_decode_encode_barcode bars) lb
  have g2 := getOpt_str_of_lookup _ _ _ l2
  have g3 := getOpt_str_of_lookup _ _ _ l3
  have g4 := getOpt_str_of_lookup _ _ _ l4
  have g5 := getOpt_str_of_lookup _ _ _ l5
  have g6 := getOpt_str_of_lookup _ _ _ l6
  have g7 : getD (encodeVisualKVs ⟨bars, bg, fg, gi, lc, lt, sss⟩ ++ tail)
      "suppressStripShine" jBool false = some sss := by
    cases sss <;> simp [getD, l7, jBool]
  rw [parseVisualFM, gb, g2, g3, g4, g5, g6, g7]
  rfl

lemma parseWebServiceFM_encode (w : WebService) :
    parseWebServiceFM (wsKVs (some w)) = some w := by
  obtain ⟨tok, url⟩ := w
  simp [parseWebServiceFM, wsKVs, getReq, jLookup_cons, jLookup_nil, jStr]

lemma filter_visual_drop (v : VisualAppearance) :
    (encodeVisualKVs v).filter (fun kv => !(visualKeys.contains kv.1)) = [] := by
  obtain ⟨bars, bg, fg, gi, lc, lt, sss⟩ := v
  simp only [encodeVisualKVs, List.filter_append]
  rw [filter_listKV_mem _ _ _ _ (by decide), filter_optKV_mem _ _ _ _ (by decide),
      filter_optKV_mem _ _ _ _ (by decide), filter_optKV_mem _ _ _ _ (by decide),
      filter_optKV_mem _ _ _ _ (by decide), filter_optKV_mem _ _ _ _ (by decide),
      filter_boolKV_mem _ _ _ (by decide)]
  rfl

lemma filter_wsKVs_keep_visual (ws : Option WebService) :
    (wsKVs ws).filter (fun kv => !(visualKeys.contains kv.1)) = wsKVs ws := by
  cases ws with
  | none => rfl
  | some w =>
      have e : wsKVs (some w)
          = reqKV "authenticationToken" (.str w.authenticationToken)
            ++ reqKV "webServiceURL" (.str w.webServiceUrl) := rfl
      rw [e, List.filter_append, filter_reqKV_not_mem _ _ _ (by decide),
          filter_reqKV_not_mem _ _ _ (by decide)]

lemma decodeVisualWs_encode (vis : Option VisualAppearance) (ws : Option WebService)
    (hvis : match vis with
            | some v => v ≠ VisualAppearance.defaultVal
            | none => ws = none) :
    decodeVisualWs (visualKVs vis ++ wsKVs ws) = some (vis, ws) := by
  cases vis with
  | none =>
      have hws : ws = none := hvis
      subst hws
      rfl
  | some v =>
      have hv : v ≠ VisualAppearance.defaultVal := hvis
      have hne : (encodeVisualKVs v ++ wsKVs ws).isEmpty = false := by
        cases hev : encodeVisualKVs v with
        | nil => exact absurd (encodeVisualKVs_nil_imp v (by rw [hev]; rfl)) hv
        | cons a rest => rfl
      have hparse : parseVisualFM (encodeVisualKVs v ++ wsKVs ws) = some v :=
        parseVisualFM_encode v (wsKVs ws)
          (jLookup_wsKVs_ne _ _ (by decide) (by decide))
          (jLookup_wsKVs_ne _ _ (by decide) (by decide))
          (jLookup_wsKVs_ne _ _ (by decide) (by decide))
          (jLookup_wsKVs_ne _ _ (by decide) (by decide))
          (jLookup_wsKVs_ne _ _ (by decide) (by decide))
          (jLookup_wsKVs_ne _ _ (by decide) (by decide))
          (jLookup_wsKVs_ne _ _ (by decide) (by decide))
      have hbuf2 : (encodeVisualKVs v ++ wsKVs ws).filter
          (fun kv => !(visualKeys.contains kv.1)) = wsKVs ws := by
        rw [List.filter_append, filter_visual_drop, filter_wsKVs_keep_visual]
        rfl
      cases ws with
      | some w =>
          rw [decodeVisualWs, visualKVs, hne, hparse]
          simp only [Option.map_some, Option.some_bind, hbuf2]
          rw [show (wsKVs (some w)).isEmpty = false from rfl, parseWebServiceFM_encode]
          rfl
      | none =>
          rw [decodeVisualWs, visualKVs, hne, hparse]
          simp only [Option.map_some, Option.some_bind, hbuf2]
          rfl

lemma decodePassFlat_encode (st : Style) (vis : Option VisualAppearance)
    (ws : Option WebService) (hstr : structureSafe st.structureOf = true)
    (hvis : match vis with
            | some v => v ≠ VisualAppearance.defaultVal
            | none => ws = none) :
    decodePassFlat (styleKV st ++ visualKVs vis ++ wsKVs ws) = some (st, vis, ws) := by
  have hvw := decodeVisualWs_encode vis ws hvis
  cases st with
  | boardingPass s =>
      have hs : structureSafe s = true := hstr
      rw [decodePassFlat]
      rw [show extractFirst (fun k => styleTags.contains k)
            (styleKV (.boardingPass s) ++ visualKVs vis ++ wsKVs ws)
          = some (("boardingPass", encodeStructure s), visualKVs vis ++ wsKVs ws) from rfl]
      have h1 : decodeStyleTag "boardingPass" (encodeStructure s) = some (Style.boardingPass s) := by
        rw [show decodeStyleTag "boardingPass" (encodeStructure s)
            = (decodeStructure (encodeStructure s)).map Style.boardingPass from rfl,
            decode_encode_structure s hs]
        rfl
      simp [h1, hvw]
  | coupon s =>
      have hs : structureSafe s = true := hstr
      rw [decodePassFlat]
      rw [show extractFirst (fun k => styleTags.contains k)
            (styleKV (.coupon s) ++ visualKVs vis ++ wsKVs ws)
          = some (("coupon", encodeStructure s), visualKVs vis ++ wsKVs ws) from rfl]
      have h1 : decodeStyleTag "coupon" (encodeStructure s) = some (Style.coupon s) := by
        rw [show decodeStyleTag "coupon" (encodeStructure s)
            = (decodeStructure (encodeStructure s)).map Style.coupon from rfl,
            decode_encode_structure s hs]
        rfl
      simp [h1, hvw]
  | eventTicket s =>
      have hs : structureSafe s = true := hstr
      rw [decodePassFlat]
      rw [show extractFirst (fun k => styleTags.contains k)
            (styleKV (.eventTicket s) ++ visualKVs vis ++ wsKVs ws)
          = some (("eventTicket", encodeStructure s), visualKVs vis ++ wsKVs ws) from rfl]
      have h1 : decodeStyleTag "eventTicket" (encodeStructure s) = some (Style.eventTicket s) := by
        rw [show decodeStyleTag "eventTicket" (encodeStructure s)
            = (decodeStructure (encodeStructure s)).map Style.eventTicket from rfl,
            decode_encode_structure s hs]
        rfl
      simp [h1, hvw]
  | generic s =>
      have hs : structureSafe s = true := hstr
      rw [decodePassFlat]
      rw [show extractFirst (fun k => styleTags.contains k)
            (styleKV (.generic s) ++ visualKVs vis ++ wsKVs ws)
          = some (("generic", encodeStructure s), visualKVs vis ++ wsKVs ws) from rfl]
      have h1 : decodeStyleTag "generic" (encodeStructure s) = some (Style.generic s) := by
        rw [show decodeStyleTag "generic" (encodeStructure s)
            = (decodeStructure (encodeStructure s)).map Style.generic from rfl,
            decode_encode_structure s hs]
        rfl
      simp [h1, hvw]
  | storeCard s =>
      have hs : structureSafe s = true := hstr
      rw [decodePassFlat]
      rw [show extractFirst (fun k => styleTags.contains k)
            (styleKV (.storeCard s) ++ visualKVs vis ++ wsKVs ws)
          = some (("storeCard", encodeStructure s), visualKVs vis ++ wsKVs ws) from rfl]
      have h1 : decodeStyleTag "storeCard" (encodeStructure s) = some (Style.storeCard s) := by
        rw [show decodeStyleTag "storeCard" (encodeStructure s)
            = (decodeStructure (encodeStructure s)).map Style.storeCard from rfl,
            decode_encode_structure s hs]
        rfl
      simp [h1, hvw]

/-! ## Round trip for `Pass` -/

lemma getD_jI32List (kvs : List (String × Json)) (k0 : String) (xs : List Int)
    (hall : xs.all (fun i => fits32 i) = true)
    (hlk : jLookup kvs k0
      = if xs.isEmpty then none else some (.arr (xs.map (fun i => Json.int i)))) :
    getD kvs k0 jI32List [] = some xs :=
  getD_arr_list kvs k0 jI32 (fun i => Json.int i) xs (mapMOpt_jI32_encode xs hall) hlk

lemma getD_jBeaconList (kvs : List (String × Json)) (k0 : String) (xs : List Beacon)
    (hall : xs.all beaconWf = true)
    (hlk : jLookup kvs k0
      = if xs.isEmpty then none else some (.arr (xs.map encodeBeacon))) :
    getD kvs k0 jBeaconList [] = some xs :=
  getD_arr_list kvs k0 decodeBeacon encodeBeacon xs
    (mapMOpt_decode_encode_beacon xs hall) hlk

lemma getD_jLocationList (kvs : List (String × Json)) (k0 : String) (xs : List Location)
    (hlk : jLookup kvs k0
      = if xs.isEmpty then none else some (.arr (xs.map encodeLocation))) :
    getD kvs k0 jLocationList [] = some xs :=
  getD_arr_list kvs k0 decodeLocation encodeLocation xs
    (mapMOpt_decode_encode_location xs) hlk

lemma getOpt_u32_of_lookup (kvs : List (String × Json)) (k : String) (o : Option Nat)
    (hb : (match o with | some n => decide (n < 4294967296) | none => true) = true)
    (h : jLookup kvs k = o.map (fun n => Json.int n)) :
    getOpt kvs k jU32 = some o := by
  cases o with
  | none => simp [getOpt, h]
  | some n =>
      simp only [decide_eq_true_eq] at hb
      simp [getOpt, h, jU32]
      omega

lemma getOpt_nfc_of_lookup (kvs : List (String × Json)) (k : String) (o : Option NFC)
    (h : jLookup kvs k = o.map encodeNfc) :
    getOpt kvs k decodeNfc = some o := by
  cases o with
  | none => simp [getOpt, h]
  | some n =>
      have hn := decode_encode_nfc n
      simp only [encodeNfc] at hn
      simp [getOpt, h, encodeNfc, hn]


lemma decodePassReq_encode (p : Pass) (hfv : fits32 p.formatVersion = true) :
    decodePassReq (encodePassKVs p)
      = some (p.description, p.formatVersion, p.organizationName,
              p.passTypeIdentifier, p.serialNumber, p.teamIdentifier) := by
  have l1 : jLookup (encodePassKVs p) "description" = some (.str p.description) := by
    simp [encodePassKVs, jLookup_append, jLookup_reqKV, jLookup_optKV, jLookup_listKV,
          jLookup_boolKV, jLookup_styleKV_ne, jLookup_visualKVs_ne, jLookup_wsKVs_ne]
  have l2 : jLookup (encodePassKVs p) "formatVersion" = some (.int p.formatVersion) := by
    simp [encodePassKVs, jLookup_append, jLookup_reqKV, jLookup_optKV, jLookup_listKV,
          jLookup_boolKV, jLookup_styleKV_ne, jLookup_visualKVs_ne, jLookup_wsKVs_ne]
  have l3 : jLookup (encodePassKVs p) "organizationName"
      = some (.str p.organizationName) := by
    simp [encodePassKVs, jLookup_append, jLookup_reqKV, jLookup_optKV, jLookup_listKV,
          jLookup_boolKV, jLookup_styleKV_ne, jLookup_visualKVs_ne, jLookup_wsKVs_ne]
  have l4 : jLookup (encodePassKVs p) "passTypeIdentifier"
      = some (.str p.passTypeIdentifier) := by
    simp [encodePassKVs, jLookup_append, jLookup_reqKV, jLookup_optKV, jLookup_listKV,
          jLookup_boolKV, jLookup_styleKV_ne, jLookup_visualKVs_ne, jLookup_wsKVs_ne]
  have l5 : jLookup (encodePassKVs p) "serialNumber" = some (.str p.serialNumber) := by
    simp [encodePassKVs, jLookup_append, jLookup_reqKV, jLookup_optKV, jLookup_listKV,
          jLookup_boolKV, jLookup_styleKV_ne, jLookup_visualKVs_ne, jLookup_wsKVs_ne]
  have l6 : jLookup (encodePassKVs p) "teamIdentifier"
      = some (.str p.teamIdentifier) := by
    simp [encodePassKVs, jLookup_append, jLookup_reqKV, jLookup_optKV, jLookup_listKV,
          jLookup_boolKV, jLookup_styleKV_ne, jLookup_visualKVs_ne, jLookup_wsKVs_ne]
  have g1 : getReq (encodePassKVs p) "description" jStr = some p.description := by
    rw [getReq_of_lookup _ _ _ _ l1]
    rfl
  have g2 : getReq (encodePassKVs p) "formatVersion" jI32 = some p.formatVersion := by
    rw [getReq_of_lookup _ _ _ _ l2]
    simp [jI32, hfv]
  have g3 : getReq (encodePassKVs p) "organizationName" jStr
      = some p.organizationName := by
    rw [getReq_of_lookup _ _ _ _ l3]
    rfl
  have g4 : getReq (encodePassKVs p) "passTypeIdentifier" jStr
      = some p.passTypeIdentifier := by
    rw [getReq_of_lookup _ _ _ _ l4]
    rfl
  have g5 : getReq (encodePassKVs p) "serialNumber" jStr = some p.serialNumber := by
    rw [getReq_of_lookup _ _ _ _ l5]
    rfl
  have g6 : getReq (encodePassKVs p) "teamIdentifier" jStr = some p.teamIdentifier := by
    rw [getReq_of_lookup _ _ _ _ l6]
    rfl
  rw [decodePassReq, g1, g2, g3, g4, g5, g6]
  rfl

lemma decodePassOptA_encode (p : Pass)
    (hids : p.associatedStoreIdentifiers.all (fun i => fits32 i) = true) :
    decodePassOptA (encodePassKVs p)
      = some (p.appLaunchUrl, p.associatedStoreIdentifiers, p.userInfo,
              p.expirationDate, p.voided) := by
  have l1 : jLookup (encodePassKVs p) "appLaunchURL" = p.appLaunchUrl.map Json.str := by
    simp [encodePassKVs, jLookup_append, jLookup_reqKV, jLookup_optKV, jLookup_listKV,
          jLookup_boolKV, jLookup_styleKV_ne, jLookup_visualKVs_ne, jLookup_wsKVs_ne]
  have l2 : jLookup (encodePassKVs p) "associatedStoreIdentifiers"
      = if p.associatedStoreIdentifiers.isEmpty then none
        else some (.arr (p.associatedStoreIdentifiers.map (fun i => Json.int i))) := by
    simp [encodePassKVs, jLookup_append, jLookup_reqKV, jLookup_optKV, jLookup_listKV,
          jLookup_boolKV, jLookup_styleKV_ne, jLookup_visualKVs_ne, jLookup_wsKVs_ne]
  have l3 : jLookup (encodePassKVs p) "userInfo"
      = some (encodeUserInfo p.userInfo) := by
    simp [encodePassKVs, jLookup_append, jLookup_reqKV, jLookup_optKV, jLookup_listKV,
          jLookup_boolKV, jLookup_styleKV_ne, jLookup_visualKVs_ne, jLookup_wsKVs_ne]
  have l4 : jLookup (encodePassKVs p) "expirationDate"
      = p.expirationDate.map Json.str := by
    simp [encodePassKVs, jLookup_append, jLookup_reqKV, jLookup_optKV, jLookup_listKV,
          jLookup_boolKV, jLookup_styleKV_ne, jLookup_visualKVs_ne, jLookup_wsKVs_ne]
  have l5 : jLookup (encodePassKVs p) "voided"
      = if p.voided then some (.bool true) else none := by
    simp [encodePassKVs, jLookup_append, jLookup_reqKV, jLookup_optKV, jLookup_listKV,
          jLookup_boolKV, jLookup_styleKV_ne, jLookup_visualKVs_ne, jLookup_wsKVs_ne]
  have g1 := getOpt_str_of_lookup _ _ _ l1
  have g2 := getD_jI32List _ _ _ hids l2
  have g3 : getD (encodePassKVs p) "userInfo" jStrPairs [] = some p.userInfo := by
    rw [getD_of_lookup _ _ _ _ _ l3]
    exact jStrPairs_encodeUserInfo p.userInfo
  have g4 := getOpt_str_of_lookup _ _ _ l4
  have g5 : getD (encodePassKVs p) "voided" jBool false = some p.voided := by
    cases hv : p.voided <;> simp [getD, l5, hv, jBool]
  rw [decodePassOptA, g1, g2, g3, g4, g5]
  rfl

lemma decodePassOptB_encode (p : Pass)
    (hbea : p.beacons.all beaconWf = true)
    (hmax : (match p.maxDistance with
             | some n => decide (n < 4294967296)
             | none => true) = true) :
    decodePassOptB (encodePassKVs p)
      = some (p.beacons, p.locations, p.maxDistance, p.relevantDate, p.nfc) := by
  have l1 : jLookup (encodePassKVs p) "beacons"
      = if p.beacons.isEmpty then none
        else some (.arr (p.beacons.map encodeBeacon)) := by
    simp [encodePassKVs, jLookup_append, jLookup_reqKV, jLookup_optKV, jLookup_listKV,
          jLookup_boolKV, jLookup_styleKV_ne, jLookup_visualKVs_ne, jLookup_wsKVs_ne]
  have l2 : jLookup (encodePassKVs p) "locations"
      = if p.locations.isEmpty then none
        else some (.arr (p.locations.map encodeLocation)) := by
    simp [encodePassKVs, jLookup_append, jLookup_reqKV, jLookup_optKV, jLookup_listKV,
          jLookup_boolKV, jLookup_styleKV_ne, jLookup_visualKVs_ne, jLookup_wsKVs_ne]
  have l3 : jLookup (encodePassKVs p) "maxDistance"
      = p.maxDistance.map (fun n => Json.int n) := by
    simp [encodePassKVs, jLookup_append, jLookup_reqKV, jLookup_optKV, jLookup_listKV,
          jLookup_boolKV, jLookup_styleKV_ne, jLookup_visualKVs_ne, jLookup_wsKVs_ne]
  have l4 : jLookup (encodePassKVs p) "relevantDate" = p.relevantDate.map Json.str := by
    simp [encodePassKVs, jLookup_append, jLookup_reqKV, jLookup_optKV, jLookup_listKV,
          jLookup_boolKV, jLookup_styleKV_ne, jLookup_visualKVs_ne, jLookup_wsKVs_ne]
  have l5 : jLookup (encodePassKVs p) "nfc" = p.nfc.map encodeNfc := by
    simp [encodePassKVs, jLookup_append, jLookup_reqKV, jLookup_optKV, jLookup_listKV,
          jLookup_boolKV, jLookup_styleKV_ne, jLookup_visualKVs_ne, jLookup_wsKVs_ne]
  have g1 := getD_jBeaconList _ _ _ hbea l1
  have g2 := getD_jLocationList _ _ _ l2
  have g3 := getOpt_u32_of_lookup _ _ _ hmax l3
  have g4 := getOpt_str_of_lookup _ _ _ l4
  have g5 := getOpt_nfc_of_lookup _ _ _ l5
  rw [decodePassOptB, g1, g2, g3, g4, g5]
  rfl

lemma filter_styleKV_keep (st : Style) :
    (styleKV st).filter (fun kv => !(passNamedKeys.contains kv.1)) = styleKV st := by
  cases st <;> exact filter_reqKV_not_mem _ _ _ (by decide)

lemma filter_visualKVs_keep (vis : Option VisualAppearance) :
    (visualKVs vis).filter (fun kv => !(passNamedKeys.contains kv.1)) = visualKVs vis := by
  cases vis with
  | none => rfl
  | some v =>
      show (encodeVisualKVs v).filter _ = encodeVisualKVs v
      simp only [encodeVisualKVs, List.filter_append]
      rw [filter_listKV_not_mem _ _ _ _ (by decide), filter_optKV_not_mem _ _ _ _ (by decide),
          filter_optKV_not_mem _ _ _ _ (by decide), filter_optKV_not_mem _ _ _ _ (by decide),
          filter_optKV_not_mem _ _ _ _ (by decide), filter_optKV_not_mem _ _ _ _ (by decide),
          filter_boolKV_not_mem _ _ _ (by decide)]

lemma filter_wsKVs_keep (ws : Option WebService) :
    (wsKVs ws).filter (fun kv => !(passNamedKeys.contains kv.1)) = wsKVs ws := by
  cases ws with
  | none => rfl
  | some w =>
      have e : wsKVs (some w)
          = reqKV "authenticationToken" (.str w.authenticationToken)
            ++ reqKV "webServiceURL" (.str w.webServiceUrl) := rfl
      rw [e, List.filter_append, filter_reqKV_not_mem _ _ _ (by decide),
          filter_reqKV_not_mem _ _ _ (by decide)]

lemma passBuf (p : Pass) :
    (encodePassKVs p).filter (fun kv => !(passNamedKeys.contains kv.1))
      = styleKV p.style ++ visualKVs p.visual ++ wsKVs p.webService := by
  simp only [encodePassKVs, List.filter_append]
  rw [filter_reqKV_mem _ _ _ (by decide), filter_reqKV_mem _ _ _ (by decide),
      filter_reqKV_mem _ _ _ (by decide), filter_reqKV_mem _ _ _ (by decide),
      filter_reqKV_mem _ _ _ (by decide), filter_reqKV_mem _ _ _ (by decide),
      filter_optKV_mem _ _ _ _ (by decide), filter_listKV_mem _ _ _ _ (by decide),
      filter_reqKV_mem _ _ _ (by decide), filter_optKV_mem _ _ _ _ (by decide),
      filter_boolKV_mem _ _ _ (by decide), filter_listKV_mem _ _ _ _ (by decide),
      filter_listKV_mem _ _ _ _ (by decide), filter_optKV_mem _ _ _ _ (by decide),
      filter_optKV_mem _ _ _ _ (by decide), filter_styleKV_keep, filter_visualKVs_keep,
      filter_wsKVs_keep, filter_optKV_mem _ _ _ _ (by decide)]
  simp

/-- Conditions under which the serde round trip reproduces the pass exactly:
machine-integer fields in range (guaranteed by Rust's types), every field
with a number-formatting block also carries a date block, and the flattened
optional visual appearance either absent with no web service block after it,
or contributing at least one key. -/
def RoundTripSafe (p : Pass) : Bool :=
  fits32 p.formatVersion
    && p.associatedStoreIdentifiers.all (fun i => fits32 i)
    && p.beacons.all beaconWf
    && (match p.maxDistance with
        | some n => decide (n < 4294967296)
        | none => true)
    && structureSafe p.style.structureOf
    && (match p.visual with
        | some v => !(v == VisualAppearance.defaultVal)
        | none => p.webService.isNone)

/-- Round trip of the full pass encoder and decoder under `RoundTripSafe`. -/
lemma decode_encode_pass (p : Pass) (h : RoundTripSafe p = true) :
    decodePass (encodePass p) = some p := by
  simp only [RoundTripSafe, Bool.and_eq_true] at h
  obtain ⟨⟨⟨⟨⟨h1, h2⟩, h3⟩, h4⟩, h5⟩, h6⟩ := h
  have hvis : match p.visual with
      | some v => v ≠ VisualAppearance.defaultVal
      | none => p.webService = none := by
    cases hv : p.visual with
    | none =>
        rw [hv] at h6
        exact Option.isNone_iff_eq_none.mp h6
    | some v =>
        rw [hv] at h6
        simpa using h6
  have hreq := decodePassReq_encode p h1
  have hoptA := decodePassOptA_encode p h2
  have hoptB := decodePassOptB_encode p h3 h4
  have hflat := decodePassFlat_encode p.style p.visual p.webService h5 hvis
  show decodePass (.obj (encodePassKVs p)) = some p
  rw [decodePass, hreq, hoptA, hoptB]
  simp only [Option.some_bind, passBuf p, hflat]
  rfl

/-! ## File-system model lemmas -/

lemma dirExists_removeDir (fs : Fs) (p : String) :
    (fs.removeDir p).dirExists p = false := by
  simp only [Fs.removeDir, Fs.dirExists]
  induction fs.dirs with
  | nil => rfl
  | cons d rest ih =>
      by_cases h : d.1 = p <;> simp [List.filter_cons, h, ih]

lemma dirExists_addFile (fs : Fs) (dir p : String) (e : Entry) :
    (fs.addFile dir e).dirExists p = fs.dirExists p := by
  simp only [Fs.addFile, Fs.dirExists]
  induction fs.dirs with
  | nil => rfl
  | cons d rest ih =>
      simp only [List.map_cons, List.any_cons, ih]
      by_cases h : d.1 = dir <;> simp [h]

lemma readDir_addFile (fs : Fs) (dir : String) (e : Entry) :
    (fs.addFile dir e).readDir dir = (fs.readDir dir).map (fun es => upsertEntry es e) := by
  simp only [Fs.addFile, Fs.readDir, List.find?_map]
  have hpred : ((fun d => d.1 == dir)
        ∘ (fun d : String × List Entry =>
            if d.1 == dir then (d.1, upsertEntry d.2 e) else d))
      = (fun d : String × List Entry => d.1 == dir) := by
    funext d
    by_cases h : d.1 = dir <;> simp [h]
  rw [hpred]
  cases hf : List.find? (fun d => d.1 == dir) fs.dirs with
  | none => rfl
  | some d =>
      have hd : d.1 = dir := by
        have := List.find?_some hf
        simpa using this
      simp [hd]

lemma find?_upsert_hit (es : List Entry) (e : Entry) :
    (upsertEntry es e).find? (fun x => x.name == e.name) = some e := by
  induction es with
  | nil => simp [upsertEntry, List.find?]
  | cons a rest ih =>
      unfold upsertEntry
      by_cases h : a.name = e.name <;> simp [List.find?_cons, h, ih]

lemma find?_upsert_other (es : List Entry) (e : Entry) (n : String)
    (hne : (e.name == n) = false) :
    (upsertEntry es e).find? (fun x => x.name == n)
      = es.find? (fun x => x.name == n) := by
  have hne' : ¬(e.name = n) := by simpa using hne
  induction es with
  | nil => simp [upsertEntry, List.find?_cons, List.find?_nil, hne']
  | cons a rest ih =>
      unfold upsertEntry
      by_cases h : a.name = e.name
      · have ha : ¬(a.name = n) := by
          rw [h]
          exact hne'
        simp [List.find?_cons, h, ha, hne']
      · by_cases h2 : a.name = n
        · have h3 : ¬(n = e.name) := by
            rw [← h2]
            exact h
          simp [List.find?_cons, h, h2, h3]
        · simp [List.find?_cons, h, h2, ih]

lemma findFile_addFile_hit (fs : Fs) (dir : String) (e : Entry)
    (hdir : fs.dirExists dir = true) :
    (fs.addFile dir e).findFile dir e.name = some e := by
  unfold Fs.findFile
  rw [readDir_addFile]
  cases hrd : fs.readDir dir with
  | none =>
      exfalso
      simp only [Fs.dirExists, List.any_eq_true] at hdir
      obtain ⟨d, hd, hdp⟩ := hdir
      simp only [Fs.readDir, Option.map_eq_none'] at hrd
      rw [List.find?_eq_none] at hrd
      exact absurd hdp (by simpa using hrd d hd)
  | some es => simp [find?_upsert_hit]

lemma findFile_addFile_other (fs : Fs) (dir : String) (e : Entry) (n : String)
    (hne : (e.name == n) = false) :
    (fs.addFile dir e).findFile dir n = fs.findFile dir n := by
  unfold Fs.findFile
  rw [readDir_addFile]
  cases hrd : fs.readDir dir with
  | none => rfl
  | some es => simp [find?_upsert_other es e n hne]

/-! ## Lemmas about the copy walk of `copy_source_files_to` -/

lemma copySourceFilesTo_error (src : PassSource) (fs : Fs) (dir : String)
    (e : PassCreateError) (h : copySourceFilesTo src fs dir = .error e) :
    e = .CantCopySourceToTemp := by
  unfold copySourceFilesTo at h
  split at h
  · split at h
    · exact absurd h (by simp)
    · cases h
      rfl
  · cases h
    rfl

lemma copyEntries_ok_entries (dir : String) (fs fs' : Fs) (es : List Entry)
    (h : copyEntries dir fs es = .ok fs') :
    ∀ ent ∈ es, ent.isFile = true ∧ ent.readable = true := by
  induction es generalizing fs with
  | nil => intro ent hm; cases hm
  | cons e rest ih =>
      intro ent hm
      rw [copyEntries] at h
      by_cases hc : (e.isFile && e.readable) = true
      · rw [if_pos hc] at h
        rcases List.mem_cons.mp hm with rfl | hmem
        · simpa [Bool.and_eq_true] using hc
        · exact ih _ h ent hmem
      · rw [if_neg hc] at h
        cases h

lemma copyEntries_preserve (dir : String) (fs fs' : Fs) (es : List Entry) (n : String)
    (h : copyEntries dir fs es = .ok fs')
    (hni : ∀ e' ∈ es, (e'.name == n) = false) :
    fs'.findFile dir n = fs.findFile dir n := by
  induction es generalizing fs with
  | nil =>
      rw [copyEntries] at h
      cases h
      rfl
  | cons e rest ih =>
      rw [copyEntries] at h
      by_cases hc : (e.isFile && e.readable) = true
      · rw [if_pos hc] at h
        rw [ih _ h (fun e' he' => hni e' (List.mem_cons_of_mem _ he'))]
        exact findFile_addFile_other _ _ _ _ (hni e (List.mem_cons_self _ _))
      · rw [if_neg hc] at h
        cases h

lemma copyEntries_ok_dirExists (dir p : String) (fs fs' : Fs) (es : List Entry)
    (h : copyEntries dir fs es = .ok fs') :
    fs'.dirExists p = fs.dirExists p := by
  induction es generalizing fs with
  | nil =>
      rw [copyEntries] at h
      cases h
      rfl
  | cons e rest ih =>
      rw [copyEntries] at h
      by_cases hc : (e.isFile && e.readable) = true
      · rw [if_pos hc] at h
        rw [ih _ h, dirExists_addFile]
      · rw [if_neg hc] at h
        cases h

lemma copyEntries_ok_found (dir : String) (fs fs' : Fs) (es : List Entry)
    (hdir : fs.dirExists dir = true)
    (hnd : (es.map Entry.name).Nodup)
    (h : copyEntries dir fs es = .ok fs') :
    ∀ ent ∈ es,
      fs'.findFile dir ent.name = some ⟨ent.name, true, ent.readable, ent.content⟩ := by
  induction es generalizing fs with
  | nil => intro ent hm; cases hm
  | cons e rest ih =>
      intro ent hm
      rw [List.map_cons] at hnd
      have hnotin := (List.nodup_cons.mp hnd).1
      have hnd2 := (List.nodup_cons.mp hnd).2
      rw [copyEntries] at h
      by_cases hc : (e.isFile && e.readable) = true
      · rw [if_pos hc] at h
        rcases List.mem_cons.mp hm with rfl | hmem
        · have hfresh : ∀ e' ∈ rest, (e'.name == ent.name) = false := by
            intro e' he'
            by_contra hb
            simp only [Bool.not_eq_false] at hb
            refine absurd ?_ hnotin
            rw [← eq_of_beq hb]
            exact List.mem_map_of_mem Entry.name he'
          rw [copyEntries_preserve dir _ fs' rest ent.name h hfresh]
          exact findFile_addFile_hit fs dir _ hdir
        · have hdir2 : (fs.addFile dir
              ⟨e.name, true, e.readable, e.content⟩).dirExists dir = true := by
            rw [dirExists_addFile]
            exact hdir
          exact ih _ hdir2 hnd2 h ent hmem
      · rw [if_neg hc] at h
        cases h

/-! ## Lemmas about `calculate_hashes_of` -/

lemma debugQuote_inj (a b : String) (h : debugQuote a = debugQuote b) : a = b := by
  unfold debugQuote at h
  have hd := congrArg String.data h
  simp only [String.data_append] at hd
  exact String.ext (List.append_cancel_left (List.append_cancel_right hd))

lemma enumerateEntries_ok (es : List Entry) (m0 m : List (String × String))
    (hfresh : ∀ e ∈ es, e.isFile = true →
      (m0.any (fun kv => kv.1 == debugQuote e.name)) = false)
    (hnd : (es.map Entry.name).Nodup)
    (h : enumerateEntries m0 es = .ok m) :
    m = m0 ++ (es.filter (fun e => e.isFile)).map
        (fun e => (debugQuote e.name, getHash (contentBytes e.content))) := by
  induction es generalizing m0 with
  | nil =>
      rw [enumerateEntries] at h
      cases h
      simp
  | cons e rest ih =>
      rw [List.map_cons] at hnd
      have hnotin := (List.nodup_cons.mp hnd).1
      have hnd2 := (List.nodup_cons.mp hnd).2
      rw [enumerateEntries] at h
      by_cases hf : e.isFile = true
      · rw [if_pos hf] at h
        by_cases hr : e.readable = true
        · rw [if_pos hr] at h
          have hins : mapInsert m0 (debugQuote e.name)
                (getHash (contentBytes e.content))
              = m0 ++ [(debugQuote e.name, getHash (contentBytes e.content))] := by
            unfold mapInsert
            rw [if_neg (by
              rw [hfresh e (List.mem_cons_self _ _) hf]
              simp)]
          rw [hins] at h
          have hfresh2 : ∀ e' ∈ rest, e'.isFile = true →
              ((m0 ++ [(debugQuote e.name, getHash (contentBytes e.content))]).any
                (fun kv => kv.1 == debugQuote e'.name)) = false := by
            intro e' he' hf'
            rw [List.any_append]
            have h1 := hfresh e' (List.mem_cons_of_mem _ he') hf'
            have h2 : (debugQuote e.name == debugQuote e'.name) = false := by
              by_contra hb
              simp only [Bool.not_eq_false] at hb
              refine absurd ?_ hnotin
              rw [debugQuote_inj _ _ (eq_of_beq hb)]
              exact List.mem_map_of_mem Entry.name he'
            simp [h1, h2]
          rw [ih _ hfresh2 hnd2 h]
          simp [List.filter_cons, hf]
        · rw [if_neg hr] at h
          cases h
      · rw [if_neg hf] at h
        have hfresh2 : ∀ e' ∈ rest, e'.isFile = true →
            (m0.any (fun kv => kv.1 == debugQuote e'.name)) = false :=
          fun e' he' hf' => hfresh e' (List.mem_cons_of_mem _ he') hf'
        rw [ih _ hfresh2 hnd2 h]
        simp [List.filter_cons, hf]

/-! ## Lemmas about the builder -/

lemma applyOp_transitType (b : PassBuilder) (op : BuilderOp) :
    (applyOp b op).passStructure.transitType = b.passStructure.transitType := by
  cases op <;> rfl

lemma applyOps_transitType (b : PassBuilder) (ops : List BuilderOp) :
    (applyOps b ops).passStructure.transitType = b.passStructure.transitType := by
  induction ops generalizing b with
  | nil => rfl
  | cons op rest ih =>
      rw [show applyOps b (op :: rest) = applyOps (applyOp b op) rest from rfl, ih,
          applyOp_transitType]

/-! ## Claim inputs and claim theorems -/

def c1Pass : Pass :=
  ⟨"d", 1, "org", "pass.com.example", "0001", "TEAM", none, [], [], none, false,
   [], [], none, none, .generic Structure.defaultVal, none, none, none⟩

def c1Src : PassSource := (PassSource.new "src").addPass c1Pass

def c1Fs : Fs := ⟨[("src", [⟨"icon.png", true, true, .bytes [7]⟩])], true⟩

/-- C1: the claim says a successful `build_pkpass` produces exactly one archive
file at a caller-chosen destination path with the pass definition, assets,
manifest and signature entries. The code has no destination parameter and
never assembles an archive, a manifest file or a signature: on this fully
successful build the final file system is identical to the initial one (the
staged files lived only in the dropped temporary directory). -/
theorem c1_buildPkpass_creates_no_archive :
    (buildPkpass c1Src c1Fs "tmp").1 = .ok ()
      ∧ (buildPkpass c1Src c1Fs "tmp").2.2 = c1Fs :=
  ⟨rfl, rfl⟩

def c2Src : PassSource := PassSource.new "src"

def c2Fs : Fs := ⟨[("src", [])], true⟩

/-- C2: the claim says that with no `pass.json` in the source directory and no
pass supplied via `add_pass`, `build_pkpass` fails with `PassContentNotFound`.
The code never constructs that error: on an empty source directory with no
supplied pass the build returns success, resolves no content, and leaves the
file system unchanged. -/
theorem c2_buildPkpass_missing_content_succeeds :
    (buildPkpass c2Src c2Fs "tmp").1 = .ok ()
      ∧ (buildPkpass c2Src c2Fs "tmp").2.1.passContent = none
      ∧ (buildPkpass c2Src c2Fs "tmp").2.2 = c2Fs :=
  ⟨rfl, rfl, rfl⟩

def c3Entries : List Entry :=
  [⟨"icon.png", true, true, .bytes [7]⟩, ⟨"pass.json", true, true, .bytes [8]⟩]

/-- C3 counterexample: on a staged directory holding `icon.png` and
`pass.json`, the manifest keys are the Debug-quoted names of both files —
including the pass definition — not the plain file names with the definition
excluded, so the claimed key set (exactly the staged names minus the
pass-definition, manifest and signature entries) is wrong on both counts. -/
theorem c3_counterexample :
    (enumerateEntries [] c3Entries).map (fun m => m.map Prod.fst)
        = .ok ["\"icon.png\"", "\"pass.json\""]
      ∧ (["\"icon.png\"", "\"pass.json\""] : List String) ≠ ["icon.png"] :=
  ⟨rfl, by decide⟩

/-- C3 (amended): after `calculate_hashes_of` succeeds on a directory whose
entry names are distinct, the manifest holds exactly one entry per regular
file of the directory — including `pass.json` when present — keyed by the
Debug-quoted (quote-wrapped) file name and mapped to the hex SHA-1 digest of
that file's raw bytes. -/
theorem c3_amended (es : List Entry) (m : List (String × String))
    (hnd : (es.map Entry.name).Nodup)
    (h : enumerateEntries [] es = .ok m) :
    m = (es.filter (fun e => e.isFile)).map
        (fun e => (debugQuote e.name, getHash (contentBytes e.content))) :=
  enumerateEntries_ok es [] m (by intro e _ _; rfl) hnd h

theorem c3_amended_witness :
    (([⟨"icon.png", true, true, FileContent.bytes [7]⟩] : List Entry).map
        Entry.name).Nodup
      ∧ enumerateEntries [] [⟨"icon.png", true, true, FileContent.bytes [7]⟩]
          = .ok [(debugQuote "icon.png", getHash (contentBytes (FileContent.bytes [7])))]
      ∧ [(debugQuote "icon.png", getHash (contentBytes (FileContent.bytes [7])))]
          = (([⟨"icon.png", true, true, FileContent.bytes [7]⟩] : List Entry).filter
              (fun e => e.isFile)).map
              (fun e => (debugQuote e.name, getHash (contentBytes e.content))) :=
  ⟨by decide, rfl, c3_amended _ _ (by decide) rfl⟩

def c4Pass : Pass :=
  ⟨"d", 1, "o", "p", "s", "t", none, [], [], none, false, [], [], none, none,
   .generic Structure.defaultVal, none, none, none⟩

def c4Src : PassSource := (PassSource.new "src").addPass c4Pass

def c4SrcEntries : List Entry := [⟨"pass.json", true, true, .bytes [1, 2, 3]⟩]

def c4Fs : Fs := ⟨[("src", c4SrcEntries), ("tmp", [])], true⟩

def c4Staged : Fs :=
  ⟨[("src", c4SrcEntries), ("tmp", [⟨"pass.json", true, true, .bytes [1, 2, 3]⟩])], true⟩

/-- C4 counterexample: with a pass supplied via `add_pass` and a `pass.json`
also present in the source directory, the staging pipeline copies the source
file into the build and `write_pass_file_to` declines to write the supplied
object (it writes only when no source `pass.json` exists), so the
pass-definition entry that ends up staged is the source file's bytes, not the
supplied object's encoding — the file, not the supplied object, wins. -/
theorem c4_counterexample :
    resolvePassContent c4Src c4Fs = .ok c4Src
      ∧ copySourceFilesTo c4Src c4Fs "tmp" = .ok c4Staged
      ∧ writePassFileTo c4Src c4Staged "tmp" = .ok c4Staged
      ∧ c4Staged.findFile "tmp" "pass.json"
          = some ⟨"pass.json", true, true, .bytes [1, 2, 3]⟩
      ∧ FileContent.bytes [1, 2, 3] ≠ .jsonText (encodePass c4Pass) :=
  ⟨rfl, rfl, rfl, rfl, by simp⟩

/-- C4 (amended): when a pass was supplied via `add_pass` and the source
directory also contains `pass.json`, the supplied object takes precedence only
in memory — `resolve_pass_content` keeps it and ignores the file — while
`write_pass_file_to` is a no-op, so the staged pass-definition entry is the
copied source file; the supplied object's encoding is written only when the
source has no `pass.json`. -/
theorem c4_amended (src : PassSource) (fs : Fs) (dir : String) (p : Pass)
    (hp : src.passContent = some p)
    (hx : isPassFileExistsInSource src fs = true) :
    resolvePassContent src fs = .ok src ∧ writePassFileTo src fs dir = .ok fs := by
  constructor
  · unfold resolvePassContent
    rw [hp]
    rfl
  · unfold writePassFileTo
    rw [hx]
    rfl

theorem c4_amended_witness :
    c4Src.passContent = some c4Pass
      ∧ isPassFileExistsInSource c4Src c4Fs = true
      ∧ (resolvePassContent c4Src c4Fs = .ok c4Src
          ∧ writePassFileTo c4Src c4Fs "tmp" = .ok c4Fs) :=
  ⟨rfl, rfl, c4_amended c4Src c4Fs "tmp" c4Pass rfl rfl⟩

def c5Pass : Pass :=
  ⟨"d", 1, "o", "p", "s", "t", none, [], [], none, false, [], [], none, none,
   .generic Structure.defaultVal, some VisualAppearance.defaultVal, none, none⟩

/-- C5 counterexample: the pass whose visual appearance is present but fully
default serializes the flattened visual block to zero keys, and decoding then
reconstructs the flattened `Option` as `none` (serde's flattened-`Option`
behavior), so `decode (encode D) ≠ D` for this valid definition — exactly the
shape every `PassBuilder` finish method produces by default. -/
theorem c5_counterexample : decodePass (encodePass c5Pass) ≠ some c5Pass := by
  decide

/-- C5 (amended): `decode (encode D) = D` holds for every definition D whose
machine-integer fields are in range, in which every field carrying a
number-formatting block also carries a date block, and whose flattened visual
appearance is either absent (with no web-service block following it) or
contributes at least one key — the conditions forced by serde's handling of
flattened optional structs. -/
theorem c5_amended (p : Pass) (h : RoundTripSafe p = true) :
    decodePass (encodePass p) = some p :=
  decode_encode_pass p h

def c5SafePass : Pass :=
  ⟨"d", 1, "o", "p", "s", "t", none, [], [], none, false, [], [], none, none,
   .generic Structure.defaultVal, none, none, none⟩

theorem c5_amended_witness :
    RoundTripSafe c5SafePass = true
      ∧ decodePass (encodePass c5SafePass) = some c5SafePass :=
  ⟨by decide, c5_amended c5SafePass (by decide)⟩

def c6MissingSrc : PassSource := PassSource.new "missing"

def c6EmptyFs : Fs := ⟨[], true⟩

def c6BadFs : Fs := ⟨[("src", [⟨"bad.png", true, false, .bytes []⟩])], true⟩

/-- C6 counterexample: a missing source directory and a per-entry copy failure
both collapse to the payload-free `CantCopySourceToTemp`; no error variant
names the source directory or the failing entry, contradicting the claimed
`ResourceNotFound`-naming-the-directory and `CopyFailure`-naming-the-entry
behavior. -/
theorem c6_counterexample :
    copySourceFilesTo c6MissingSrc c6EmptyFs "tmp" = .error .CantCopySourceToTemp
      ∧ copySourceFilesTo (PassSource.new "src") c6BadFs "tmp"
          = .error .CantCopySourceToTemp
      ∧ PassCreateError.names .CantCopySourceToTemp = none :=
  ⟨rfl, rfl, rfl⟩

/-- C6 (amended): every failure of the asset-staging step — missing or
unreadable source directory, or a per-entry copy failure — yields the single
payload-free error `CantCopySourceToTemp`, which names neither the directory
nor the entry; no entry is skipped silently: when staging succeeds, every
entry of the source directory was a readable regular file and its copy is
present in the destination directory. -/
theorem c6_amended (src : PassSource) (fs : Fs) (dir : String) (es : List Entry)
    (hdir : fs.dirExists dir = true)
    (hrd : fs.readDir src.sourceDirectory = some es)
    (hnd : (es.map Entry.name).Nodup) :
    (∀ e, copySourceFilesTo src fs dir = .error e →
        e = .CantCopySourceToTemp ∧ e.names = none)
      ∧ (∀ fs', copySourceFilesTo src fs dir = .ok fs' →
          ∀ ent ∈ es, (ent.isFile = true ∧ ent.readable = true)
            ∧ fs'.findFile dir ent.name
              = some ⟨ent.name, true, ent.readable, ent.content⟩) := by
  constructor
  · intro e he
    have h := copySourceFilesTo_error src fs dir e he
    subst h
    exact ⟨rfl, rfl⟩
  · intro fs' hok ent hm
    have hco : copyEntries dir fs es = .ok fs' := by
      unfold copySourceFilesTo at hok
      simp only [hrd] at hok
      cases hcc : copyEntries dir fs es with
      | ok fs1 =>
          simp only [hcc] at hok
          cases hok
          rfl
      | error u =>
          simp only [hcc] at hok
          exact absurd hok (by simp)
    exact ⟨copyEntries_ok_entries dir fs fs' es hco ent hm,
           copyEntries_ok_found dir fs fs' es hdir hnd hco ent hm⟩

def c6GoodFs : Fs := ⟨[("src", [⟨"a.png", true, true, .bytes [1]⟩]), ("tmp", [])], true⟩

def c6Staged : Fs :=
  ⟨[("src", [⟨"a.png", true, true, .bytes [1]⟩]),
    ("tmp", [⟨"a.png", true, true, .bytes [1]⟩])], true⟩

theorem c6_amended_witness :
    c6GoodFs.dirExists "tmp" = true
      ∧ c6GoodFs.readDir "src" = some [⟨"a.png", true, true, .bytes [1]⟩]
      ∧ copySourceFilesTo (PassSource.new "src") c6GoodFs "tmp" = .ok c6Staged
      ∧ c6Staged.findFile "tmp" "a.png" = some ⟨"a.png", true, true, .bytes [1]⟩ :=
  ⟨rfl, rfl, rfl,
    ((c6_amended (PassSource.new "src") c6GoodFs "tmp" _ rfl rfl (by decide)).2
      c6Staged rfl ⟨"a.png", true, true, .bytes [1]⟩ (List.mem_cons_self _ _)).2⟩

/-- C7: on every exit path of `build_pkpass` — success, or failure at the
copy, write or hashing stage, or an error before the workspace exists — the
scoped temporary directory created by `create_tmp_dir` is absent from the
final file system, so no residual workspace remains after the call returns. -/
theorem c7_tmp_workspace_released (src : PassSource) (fs : Fs) (tmpPath : String)
    (hfresh : fs.dirExists tmpPath = false) :
    (buildPkpass src fs tmpPath).2.2.dirExists tmpPath = false := by
  unfold buildPkpass
  split
  · exact hfresh
  · split
    · exact hfresh
    · split
      · exact dirExists_removeDir _ _
      · split
        · exact dirExists_removeDir _ _
        · split
          · exact dirExists_removeDir _ _
          · exact dirExists_removeDir _ _

theorem c7_witness :
    (⟨[("s", [])], true⟩ : Fs).dirExists "t" = false
      ∧ (buildPkpass (PassSource.new "s") ⟨[("s", [])], true⟩ "t").2.2.dirExists "t"
          = false :=
  ⟨rfl, c7_tmp_workspace_released (PassSource.new "s") ⟨[("s", [])], true⟩ "t" rfl⟩

/-- C8: for every sequence of builder method calls starting from
`PassBuilder::new`, the pass finished as a boarding pass carries the given
transit-type tag, and a pass finished as a coupon, event ticket, generic pass
or store card carries none; `finish_boarding_pass` is the only finishing path
taking a transit type. -/
theorem c8_transit_type_invariant (sn pti ti : String) (ops : List BuilderOp)
    (tt : TransitType) :
    transitTypeOfPass
        (finishBoardingPass (applyOps (PassBuilder.new sn pti ti) ops) tt) = some tt
      ∧ transitTypeOfPass (finishCoupon (applyOps (PassBuilder.new sn pti ti) ops))
          = none
      ∧ transitTypeOfPass (finishEventTicket (applyOps (PassBuilder.new sn pti ti) ops))
          = none
      ∧ transitTypeOfPass (finishGeneric (applyOps (PassBuilder.new sn pti ti) ops))
          = none
      ∧ transitTypeOfPass (finishStoreCard (applyOps (PassBuilder.new sn pti ti) ops))
          = none := by
  have hbase : (applyOps (PassBuilder.new sn pti ti) ops).passStructure.transitType
      = none := by
    rw [applyOps_transitType]
    rfl
  refine ⟨rfl, ?_, ?_, ?_, ?_⟩ <;>
    simp [transitTypeOfPass, finishCoupon, finishEventTicket, finishGeneric,
          finishStoreCard, PassBuilder.build, Style.structureOf, hbase]

/-- C9: `add_secondary_field` leaves the builder's secondary field group
unchanged and appends the field to the auxiliary group instead, so no field
added through it can reach `secondaryFields` of the finished pass. -/
theorem c9_add_secondary_field_frame (b : PassBuilder) (f : PassField) :
    (applyOp b (.addSecondaryField f)).passStructure.secondaryFields
        = b.passStructure.secondaryFields
      ∧ (applyOp b (.addSecondaryField f)).passStructure.auxiliaryFields
        = b.passStructure.auxiliaryFields ++ [f] :=
  ⟨rfl, rfl⟩

/-- C10: every finish method of `PassBuilder` produces a pass whose
`format_version` is 1 and whose visual appearance is present, for every
builder state. -/
theorem c10_finish_format_version_and_visual (b : PassBuilder) (tt : TransitType) :
    ((finishBoardingPass b tt).formatVersion = 1
        ∧ (finishBoardingPass b tt).visual.isSome = true)
      ∧ ((finishCoupon b).formatVersion = 1 ∧ (finishCoupon b).visual.isSome = true)
      ∧ ((finishEventTicket b).formatVersion = 1
          ∧ (finishEventTicket b).visual.isSome = true)
      ∧ ((finishGeneric b).formatVersion = 1 ∧ (finishGeneric b).visual.isSome = true)
      ∧ ((finishStoreCard b).formatVersion = 1
          ∧ (finishStoreCard b).visual.isSome = true) :=
  ⟨⟨rfl, rfl⟩, ⟨rfl, rfl⟩, ⟨rfl, rfl⟩, ⟨rfl, rfl⟩, ⟨rfl, rfl⟩⟩
